import Mathlib

/-!
Shallow embedding of `src/HighLevelAnalyzer.py` (Bitmain I2C high-level
analyzer).  The Python class `Hla` keeps mutable per-session state and a
`decode` method consuming one bus event (`start`, `address`, `data`, `stop`,
or an event carrying an `error` marker) at a time.  Here the state is a
structure, `decode` is a pure function from state and event to a new state
together with an optional emitted frame, and the Python `IndexError` raised
by out-of-range `bytearray` indexing is modelled with `Except`.

Machine integers: Python integers are unbounded, so numeric state fields are
`Int` (byte positions are compared against `frame_len - 2 + preamble_offset`,
which can be negative in Python).  Incoming data bytes are `Nat`.
Timestamps are `Nat` (the code only stores and copies them).

Floating-point rendering of voltages (Python f-string `f"{volt:10.3f}V"`)
is not translated; the raw 16-bit integer the formula is applied to is kept
in a dedicated constructor `PayloadOut.voltage` instead.  No claim below
depends on the rendered float text.
-/

/-- Bus event, mirroring the `AnalyzerFrame` objects the Saleae I2C analyzer
hands to `Hla.decode`.  Only the fields the Python code actually reads are
kept: `start` carries `frame.start_time`, `stop` carries `frame.end_time`,
`address` carries `frame.data['address'][0]` and `frame.data['read']`,
`data` carries `frame.data['data'][0]`.  `error` stands for any frame whose
`data` dict contains an `'error'` key (line 139). -/
inductive I2cEvent where
  | error : I2cEvent
  | start (start_time : Nat) : I2cEvent
  | address (addr : Nat) (rd : Bool) : I2cEvent
  | data (raw : Nat) : I2cEvent
  | stop (end_time : Nat) : I2cEvent
deriving DecidableEq

/-- The mutable fields of the Python `Hla` instance (`__init__`, lines
117-136). -/
structure HlaState where
  byte_pos : Int
  start_of_transaction : Option Nat
  start_of_frame : Option Nat
  end_of_frame : Option Nat
  read : Bool
  last_read : Bool
  for_us : Bool
  preamble_offset : Int
  frame_len : Int
  code : Int
  type : String
  payload : List Nat
  checksum_read : Int
  checksum_calc : Int
deriving DecidableEq

/-- `Hla.__init__`: initial state of a decoding session. -/
def initState : HlaState :=
  { byte_pos := 0
    start_of_transaction := none
    start_of_frame := none
    end_of_frame := none
    read := false
    last_read := true
    for_us := false
    preamble_offset := 0
    frame_len := 99
    code := 99
    type := ""
    payload := []
    checksum_read := 0
    checksum_calc := 0 }

/-- The `apw_types` table (lines 8-15): only code 131 is mapped. -/
def apw_types (code : Int) : Option String :=
  if code = 131 then some "set_voltage" else none

/-- The `pic_types` table (lines 17-30). -/
def pic_types (code : Int) : Option String :=
  if code = 2 then some "write_app"
  else if code = 6 then some "jump_app"
  else if code = 7 then some "init"
  else if code = 9 then some "erase_app"
  else if code = 16 then some "set_something_3"
  else if code = 21 then some "power_switch"
  else if code = 22 then some "heart_beat"
  else if code = 23 then some "get_fw_version"
  else if code = 40 then some "get_something_9"
  else if code = 41 then some "get_voltage"
  else if code = 43 then some "get_something_5"
  else if code = 49 then some "set_something_1"
  else none

/-- `get_type` (lines 32-42): table lookup with `"unknown"` fallback for a
missing key (the Python `KeyError` handler) or an unrecognized device. -/
def get_type (dev : String) (code : Int) : String :=
  if dev = "APW" then (apw_types code).getD "unknown"
  else if dev = "dsPIC" then (pic_types code).getD "unknown"
  else "unknown"

/-- The `payload` field of an emitted frame.  `str` is the exact string the
Python code builds; `voltage n` stands for the Python float rendering
`f"{n * 3.3 * 0.000244140625 * 7.599999904632568:10.3f}V"` applied to the
16-bit integer `n`, which is kept symbolic. -/
inductive PayloadOut where
  | str (s : String) : PayloadOut
  | voltage (raw16 : Int) : PayloadOut
deriving DecidableEq

/-- The `AnalyzerFrame` record returned on frame completion
(lines 238-244). -/
structure FrameOut where
  type : String
  startT : Option Nat
  endT : Option Nat
  direction : String
  len : String
  code : String
  payload : PayloadOut
  checksum : String
deriving DecidableEq

/-- Python `format(x, '02x')`: lowercase hex, zero-padded to two digits. -/
def hexByte (n : Nat) : String :=
  let ds := Nat.toDigits 16 n
  String.mk (if ds.length < 2 then '0' :: ds else ds)

/-- `self._payload[i]` on a Python bytearray: raises `IndexError` when the
index is out of range. -/
def byteAt (l : List Nat) (i : Nat) : Except String Nat :=
  match l.get? i with
  | some b => Except.ok b
  | none => Except.error "IndexError"

/-- Target address selection (line 147):
`0x10 if device == "APW" else 0x20 if device == "dsPIC" else 0xFF`. -/
def expectedAddr (dev : String) : Nat :=
  if dev = "APW" then 0x10 else if dev = "dsPIC" then 0x20 else 0xFF

/-- The `frame.type == 'data'` branch of `Hla.decode` (lines 159-199).
Data events never raise and never emit, so this returns the new state. -/
def decodeData (dev : String) (s : HlaState) (raw : Nat) : HlaState :=
  if s.for_us = false then s
  -- lines 164-173: with a two-byte preamble in effect, positions 0 and 1
  -- are preamble slots; the handler returns after the (print-only) check,
  -- mutating nothing.
  else if (s.byte_pos = 0 ∨ s.byte_pos = 1) ∧ s.preamble_offset = 2 then s
  else
    -- lines 174-176: accumulate bytes in checksum.  The accumulation only
    -- changes `checksum_calc`, which none of the position tests below read,
    -- so the updated accumulator is threaded into each branch instead of
    -- shadowing the whole state.
    let calc' :=
      if 0 + s.preamble_offset ≤ s.byte_pos ∧
          s.byte_pos < s.frame_len - 2 + s.preamble_offset then
        s.checksum_calc + (raw : Int)
      else s.checksum_calc
    -- lines 177-199: parse data
    if s.byte_pos = 0 + s.preamble_offset then
      { s with checksum_calc := calc', frame_len := (raw : Int) }
    else if s.byte_pos = 1 + s.preamble_offset then
      if raw = 1 then
        -- short frame
        { s with checksum_calc := calc', code := s.frame_len, frame_len := 2,
                 type := get_type dev s.frame_len }
      else
        { s with checksum_calc := calc', code := (raw : Int),
                 type := get_type dev (raw : Int) }
    else if s.byte_pos = s.frame_len - 2 + s.preamble_offset then
      { s with checksum_calc := calc',
               checksum_read :=
                 if dev = "APW" ∧ s.read = true then (raw : Int)
                 else (raw : Int) * 256 }  -- raw << 8
    else if s.byte_pos = s.frame_len - 1 + s.preamble_offset then
      { s with checksum_calc := calc',
               checksum_read := s.checksum_read +
                 (if dev = "APW" ∧ s.read = true then (raw : Int) * 256
                  else (raw : Int)) }
    else if 2 + s.preamble_offset ≤ s.byte_pos then
      { s with checksum_calc := calc', payload := s.payload ++ [raw] }
    else
      { s with checksum_calc := calc' }

/-- The payload-interpretation if-chain of the stop handler (lines
215-228): builds the `payload` string of the emitted frame, raising
`IndexError` on a too-short payload exactly where the Python indexing
would. -/
def interpretPayload (s : HlaState) : Except String PayloadOut :=
  if s.read = true ∧ s.type = "get_fw_version" then
    match byteAt s.payload 0 with
    | Except.error e => Except.error e
    | Except.ok b => Except.ok (PayloadOut.str (Nat.repr b))
  else if s.read = false ∧ s.type = "power_switch" then
    match byteAt s.payload 0 with
    | Except.error e => Except.error e
    | Except.ok b =>
        Except.ok (if b = 0 then PayloadOut.str "OFF" else PayloadOut.str "ON")
  else if s.read = true ∧ s.type = "get_voltage" then
    match byteAt s.payload 1 with
    | Except.error e => Except.error e
    | Except.ok b1 =>
        match byteAt s.payload 2 with
        | Except.error e => Except.error e
        | Except.ok b2 =>
            Except.ok (PayloadOut.voltage ((b1 : Int) * 256 + (b2 : Int)))
  else if s.type = "set_voltage" then
    match byteAt s.payload 0 with
    | Except.error e => Except.error e
    | Except.ok b0 =>
        match byteAt s.payload 1 with
        | Except.error e => Except.error e
        | Except.ok b1 =>
            Except.ok (PayloadOut.voltage ((b0 : Int) * 256 + (b1 : Int)))
  else
    Except.ok (if s.payload.length > 0 then
                 PayloadOut.str (String.join (s.payload.map hexByte))
               else PayloadOut.str "None")

/-- The `frame.type == 'stop'` branch of `Hla.decode` (lines 200-246).
On frame completion the payload-interpretation accesses
`self._payload[..]` can raise `IndexError`, modelled by `Except.error`. -/
def decodeStop (s : HlaState) (end_time : Nat) :
    Except String (HlaState × Option FrameOut) :=
  if s.for_us = false then Except.ok (s, none)
  -- lines 203-204 set `end_of_frame := end_time` and `last_read := read`
  -- before the completion test; neither is read by the test, so the two
  -- assignments are folded into each outcome below (`direction` uses
  -- `last_read`, which at this point equals `read`).
  else if s.byte_pos = s.frame_len - 1 + s.preamble_offset then
    -- last byte of frame
    match interpretPayload s with
    | Except.error e => Except.error e
    | Except.ok payload =>
      -- init vars (lines 230-236), then the returned AnalyzerFrame
      Except.ok ({ s with end_of_frame := some end_time, last_read := s.read,
                          byte_pos := 0, frame_len := 99, payload := [],
                          checksum_read := 0, checksum_calc := 0,
                          start_of_frame := s.start_of_transaction },
                 some
        { type :=
            if s.read = true ∧ (s.type = "set_something_3" ∨
                s.type = "power_switch" ∨ s.type = "get_voltage" ∨
                s.type = "get_something_9" ∨ s.type = "get_fw_version" ∨
                s.type = "get_something_5" ∨ s.type = "set_something_1")
            then s.type ++ "_resp" else s.type
          startT := s.start_of_frame
          endT := some end_time
          direction := if s.read = true then "response" else "request"
          len := s.frame_len.repr
          code := s.code.repr
          payload := payload
          checksum :=
            if s.checksum_read = 0 then "None"
            else if s.checksum_read = s.checksum_calc then "OK" else "KO" })
  else
    Except.ok ({ s with end_of_frame := some end_time, last_read := s.read,
                        byte_pos := s.byte_pos + 1 }, none)

/-- `Hla.decode` (lines 138-246), one bus event. -/
def decode (dev : String) (s : HlaState) (ev : I2cEvent) :
    Except String (HlaState × Option FrameOut) :=
  match ev with
  | .error => Except.ok (s, none)
  | .start t =>
      Except.ok
        ({ s with start_of_transaction := some t,
                  start_of_frame :=
                    if s.byte_pos = 0 then some t else s.start_of_frame },
         none)
  | .address addr rd =>
      if addr = expectedAddr dev then
        Except.ok
          ({ s with for_us := true, read := rd,
                    preamble_offset :=
                      if rd = true ∧ dev = "dsPIC" then 0 else 2 },
           none)
      else
        Except.ok ({ s with for_us := false }, none)
  | .data raw => Except.ok (decodeData dev s raw, none)
  | .stop t => decodeStop s t

/-- Run `decode` over a list of events, collecting the emitted frames in
order.  A raised `IndexError` aborts the run, as the exception would abort
the Python call. -/
def runDecode (dev : String) (s : HlaState) :
    List I2cEvent → Except String (HlaState × List FrameOut)
  | [] => Except.ok (s, [])
  | ev :: evs => do
      let (s1, out) ← decode dev s ev
      let (s2, outs) ← runDecode dev s1 evs
      pure (s2, out.toList ++ outs)

/-- One single-byte bus transaction per data byte: `start`, `address`,
`data`, `stop`, with start time `t` and stop end time `t + 1`. -/
def txn (t : Nat) (addr : Nat) (rd : Bool) (b : Nat) : List I2cEvent :=
  [I2cEvent.start t, I2cEvent.address addr rd, I2cEvent.data b,
   I2cEvent.stop (t + 1)]

/-- A run of consecutive single-byte transactions, two time units apart. -/
def txns (t : Nat) (addr : Nat) (rd : Bool) : List Nat → List I2cEvent
  | [] => []
  | b :: bs => txn t addr rd b ++ txns (t + 2) addr rd bs

/-- Sum of a byte list as an integer. -/
def intSum (l : List Nat) : Int := ((l.map fun b => (b : Int))).sum

/-- Modelled from the spec's words, for comparison with the code's
accumulator (claim C2): the sum of the bytes of a frame whose positions lie
in `[preamble_length, declared_length - 2 + preamble_length)` — "the length
byte through the last payload byte".  `bytes` lists the frame's bytes by
position, the preamble included. -/
def specRegionSum (pre declared : Int) (bytes : List Nat) : Int :=
  ((List.range bytes.length).map fun (i : Nat) =>
    if pre ≤ (i : Int) ∧ (i : Int) < declared - 2 + pre then
      (bytes.getD i 0 : Int)
    else 0).sum

/-! Helper lemmas: the effect of `decode` on single events. -/

lemma decode_start_eq (dev : String) (s : HlaState) (t : Nat) :
    decode dev s (I2cEvent.start t) =
      Except.ok ({ s with start_of_transaction := some t,
                          start_of_frame :=
                            if s.byte_pos = 0 then some t
                            else s.start_of_frame }, none) := rfl

lemma decode_data_eq (dev : String) (s : HlaState) (b : Nat) :
    decode dev s (I2cEvent.data b) =
      Except.ok (decodeData dev s b, none) := rfl

lemma decode_addr_match (dev : String) (s : HlaState) (addr : Nat) (rd : Bool)
    (h : addr = expectedAddr dev) :
    decode dev s (I2cEvent.address addr rd) =
      Except.ok ({ s with for_us := true, read := rd,
                          preamble_offset :=
                            if rd = true ∧ dev = "dsPIC" then 0 else 2 },
                 none) := by
  simp [decode, h]

lemma decode_addr_mismatch (dev : String) (s : HlaState) (addr : Nat)
    (rd : Bool) (h : ¬ addr = expectedAddr dev) :
    decode dev s (I2cEvent.address addr rd) =
      Except.ok ({ s with for_us := false }, none) := by
  simp [decode, h]

lemma decodeData_not_for_us (dev : String) (s : HlaState) (b : Nat)
    (h : s.for_us = false) : decodeData dev s b = s := by
  simp [decodeData, h]

lemma decodeData_preamble_slot (dev : String) (s : HlaState) (b : Nat)
    (hfu : s.for_us = true)
    (h : (s.byte_pos = 0 ∨ s.byte_pos = 1) ∧ s.preamble_offset = 2) :
    decodeData dev s b = s := by
  simp [decodeData, hfu, h]

lemma decodeData_len (dev : String) (s : HlaState) (b : Nat)
    (hfu : s.for_us = true)
    (hpos : s.byte_pos = 0 + s.preamble_offset)
    (hlen : s.byte_pos < s.frame_len - 2 + s.preamble_offset) :
    decodeData dev s b =
      { s with checksum_calc := s.checksum_calc + (b : Int),
               frame_len := (b : Int) } := by
  unfold decodeData
  split_ifs <;> first | rfl | omega | simp_all

lemma decodeData_code (dev : String) (s : HlaState) (b : Nat)
    (hfu : s.for_us = true)
    (hpos : s.byte_pos = 1 + s.preamble_offset)
    (hlen : s.byte_pos < s.frame_len - 2 + s.preamble_offset)
    (hb : ¬ b = 1) :
    decodeData dev s b =
      { s with checksum_calc := s.checksum_calc + (b : Int),
               code := (b : Int), type := get_type dev (b : Int) } := by
  unfold decodeData
  split_ifs <;> first | rfl | omega | simp_all

lemma decodeData_short (dev : String) (s : HlaState)
    (hfu : s.for_us = true)
    (hpos : s.byte_pos = 1 + s.preamble_offset)
    (hlen : s.byte_pos < s.frame_len - 2 + s.preamble_offset) :
    decodeData dev s 1 =
      { s with checksum_calc := s.checksum_calc + 1,
               code := s.frame_len, frame_len := 2,
               type := get_type dev s.frame_len } := by
  unfold decodeData
  split_ifs <;> first | rfl | omega | simp_all

lemma decodeData_chk1 (dev : String) (s : HlaState) (b : Nat)
    (hfu : s.for_us = true)
    (hpos : s.byte_pos = s.frame_len - 2 + s.preamble_offset)
    (h0 : ¬ s.byte_pos = 0 + s.preamble_offset)
    (h1 : ¬ s.byte_pos = 1 + s.preamble_offset)
    (hnp : ¬ ((s.byte_pos = 0 ∨ s.byte_pos = 1) ∧ s.preamble_offset = 2)) :
    decodeData dev s b =
      { s with checksum_read :=
          if dev = "APW" ∧ s.read = true then (b : Int)
          else (b : Int) * 256 } := by
  unfold decodeData
  split_ifs <;> first | rfl | omega | simp_all

lemma decodeData_chk2 (dev : String) (s : HlaState) (b : Nat)
    (hfu : s.for_us = true)
    (hpos : s.byte_pos = s.frame_len - 1 + s.preamble_offset)
    (h0 : ¬ s.byte_pos = 0 + s.preamble_offset)
    (h1 : ¬ s.byte_pos = 1 + s.preamble_offset)
    (hnp : ¬ ((s.byte_pos = 0 ∨ s.byte_pos = 1) ∧ s.preamble_offset = 2)) :
    decodeData dev s b =
      { s with checksum_read := s.checksum_read +
          (if dev = "APW" ∧ s.read = true then (b : Int) * 256
           else (b : Int)) } := by
  unfold decodeData
  split_ifs <;> first | rfl | omega | simp_all

lemma decodeData_payload_byte (dev : String) (s : HlaState) (b : Nat)
    (hfu : s.for_us = true)
    (hlo : 2 + s.preamble_offset ≤ s.byte_pos)
    (hhi : s.byte_pos < s.frame_len - 2 + s.preamble_offset) :
    decodeData dev s b =
      { s with checksum_calc := s.checksum_calc + (b : Int),
               payload := s.payload ++ [b] } := by
  unfold decodeData
  split_ifs <;> first | rfl | omega | simp_all

lemma decodeData_byte_pos (dev : String) (s : HlaState) (b : Nat) :
    (decodeData dev s b).byte_pos = s.byte_pos := by
  unfold decodeData
  split_ifs <;> rfl

lemma decodeStop_not_for_us (s : HlaState) (t : Nat)
    (h : s.for_us = false) :
    decodeStop s t = Except.ok (s, none) := by
  simp [decodeStop, h]

lemma decodeStop_mid (s : HlaState) (t : Nat)
    (hfu : s.for_us = true)
    (hne : ¬ s.byte_pos = s.frame_len - 1 + s.preamble_offset) :
    decodeStop s t =
      Except.ok ({ s with end_of_frame := some t, last_read := s.read,
                          byte_pos := s.byte_pos + 1 }, none) := by
  unfold decodeStop
  split_ifs <;> first | rfl | omega | simp_all

/-- Inversion for an emitting stop event: what must have held before, and
how the state and the emitted frame are built. -/
lemma decodeStop_emit_inv {s : HlaState} {t : Nat} {s' : HlaState}
    {out : FrameOut} (h : decodeStop s t = Except.ok (s', some out)) :
    s.for_us = true ∧
    s.byte_pos = s.frame_len - 1 + s.preamble_offset ∧
    out.checksum = (if s.checksum_read = 0 then "None"
                    else if s.checksum_read = s.checksum_calc then "OK"
                    else "KO") ∧
    out.startT = s.start_of_frame ∧
    out.endT = some t ∧
    out.direction = (if s.read = true then "response" else "request") ∧
    out.len = s.frame_len.repr ∧
    out.code = s.code.repr ∧
    s' = { s with end_of_frame := some t, last_read := s.read,
                  byte_pos := 0, frame_len := 99, payload := [],
                  checksum_read := 0, checksum_calc := 0,
                  start_of_frame := s.start_of_transaction } := by
  unfold decodeStop at h
  by_cases h1 : s.for_us = false
  · rw [if_pos h1] at h; simp at h
  · rw [if_neg h1] at h
    by_cases h2 : s.byte_pos = s.frame_len - 1 + s.preamble_offset
    · rw [if_pos h2] at h
      cases hip : interpretPayload s with
      | error e => rw [hip] at h; simp at h
      | ok p =>
          rw [hip] at h
          simp only [Except.ok.injEq, Prod.mk.injEq, Option.some.injEq] at h
          obtain ⟨hs', hout⟩ := h
          subst hs'
          subst hout
          refine ⟨by simpa using h1, h2, rfl, rfl, rfl, rfl, rfl, rfl, rfl⟩
    · rw [if_neg h2] at h; simp at h

lemma runDecode_cons_none {dev : String} {s s1 : HlaState} {ev : I2cEvent}
    (evs : List I2cEvent) (h : decode dev s ev = Except.ok (s1, none)) :
    runDecode dev s (ev :: evs) = runDecode dev s1 evs := by
  rw [runDecode, h]
  cases hr : runDecode dev s1 evs with
  | error e => simp [Bind.bind, Except.bind, Functor.map, Except.map, hr]
  | ok p => simp [Bind.bind, Except.bind, Functor.map, Except.map, hr,
                  Pure.pure, Except.pure]

lemma intSum_nil : intSum [] = 0 := rfl

lemma intSum_cons (b : Nat) (l : List Nat) :
    intSum (b :: l) = (b : Int) + intSum l := by
  simp [intSum]

lemma decode_start_mid (dev : String) (s : HlaState) (t : Nat)
    (h : ¬ s.byte_pos = 0) :
    decode dev s (I2cEvent.start t) =
      Except.ok ({ s with start_of_transaction := some t }, none) := by
  rw [decode_start_eq, if_neg h]

lemma decode_start_zero (dev : String) (s : HlaState) (t : Nat)
    (h : s.byte_pos = 0) :
    decode dev s (I2cEvent.start t) =
      Except.ok ({ s with start_of_transaction := some t,
                          start_of_frame := some t }, none) := by
  rw [decode_start_eq, if_pos h]

lemma decode_stop_eq (dev : String) (s : HlaState) (t : Nat) :
    decode dev s (I2cEvent.stop t) = decodeStop s t := rfl

lemma txns_append (a : Nat) (rd : Bool) (xs : List Nat) :
    ∀ (t : Nat) (ys : List Nat),
      txns t a rd (xs ++ ys) =
        txns t a rd xs ++ txns (t + 2 * xs.length) a rd ys := by
  induction xs with
  | nil => intro t ys; simp [txns]
  | cons x xs ih =>
      intro t ys
      simp only [List.cons_append, txns, List.append_assoc, List.append_eq]
      rw [ih (t + 2) ys]
      have harith : t + 2 + 2 * xs.length = t + 2 * (x :: xs).length := by
        simp only [List.length_cons]
        ring
      rw [harith]

lemma byteAt_oob (l : List Nat) (i : Nat) (h : l.length ≤ i) :
    byteAt l i = Except.error "IndexError" := by
  unfold byteAt
  rw [List.get?_eq_none.mpr h]

lemma decodeStop_error_of_interpret (s : HlaState) (t : Nat)
    (hfu : s.for_us = true)
    (hpos : s.byte_pos = s.frame_len - 1 + s.preamble_offset)
    (he : interpretPayload s = Except.error "IndexError") :
    decodeStop s t = Except.error "IndexError" := by
  unfold decodeStop
  rw [if_neg (by simp [hfu]), if_pos hpos, he]

/-- A completing stop on a write frame whose type has no special payload
rendering: the frame is emitted with the default hex/None payload. -/
lemma decodeStop_emit_default (s : HlaState) (t : Nat)
    (hfu : s.for_us = true)
    (hpos : s.byte_pos = s.frame_len - 1 + s.preamble_offset)
    (hrd : s.read = false)
    (hty1 : ¬ s.type = "power_switch") (hty2 : ¬ s.type = "set_voltage") :
    decodeStop s t = Except.ok
      ({ s with end_of_frame := some t, last_read := s.read,
                byte_pos := 0, frame_len := 99, payload := [],
                checksum_read := 0, checksum_calc := 0,
                start_of_frame := s.start_of_transaction },
       some
        { type := s.type
          startT := s.start_of_frame
          endT := some t
          direction := "request"
          len := s.frame_len.repr
          code := s.code.repr
          payload := if s.payload.length > 0 then
                       PayloadOut.str (String.join (s.payload.map hexByte))
                     else PayloadOut.str "None"
          checksum := if s.checksum_read = 0 then "None"
                      else if s.checksum_read = s.checksum_calc then "OK"
                      else "KO" }) := by
  have hip : interpretPayload s =
      Except.ok (if s.payload.length > 0 then
                   PayloadOut.str (String.join (s.payload.map hexByte))
                 else PayloadOut.str "None") := by
    unfold interpretPayload
    rw [if_neg (by simp [hrd]), if_neg (by simp [hty1]),
        if_neg (by simp [hrd]), if_neg hty2]
  unfold decodeStop
  rw [if_neg (by simp [hfu]), if_pos hpos, hip]
  simp [hrd]

lemma runDecode_single_stop (dev : String) (s s' : HlaState) (t : Nat)
    (out : FrameOut) (h : decodeStop s t = Except.ok (s', some out)) :
    runDecode dev s [I2cEvent.stop t] = Except.ok (s', [out]) := by
  rw [runDecode, show decode dev s (I2cEvent.stop t) = decodeStop s t from rfl,
      h]
  simp [runDecode, Bind.bind, Except.bind, Functor.map, Except.map, Pure.pure,
        Except.pure]

lemma interpretPayload_fw_oob (s : HlaState)
    (hrd : s.read = true) (hty : s.type = "get_fw_version")
    (hp : s.payload.length < 1) :
    interpretPayload s = Except.error "IndexError" := by
  unfold interpretPayload
  rw [if_pos ⟨hrd, hty⟩, byteAt_oob s.payload 0 (by omega)]

lemma interpretPayload_ps_oob (s : HlaState)
    (hrd : s.read = false) (hty : s.type = "power_switch")
    (hp : s.payload.length < 1) :
    interpretPayload s = Except.error "IndexError" := by
  unfold interpretPayload
  rw [if_neg (by simp [hty]), if_pos ⟨hrd, hty⟩,
      byteAt_oob s.payload 0 (by omega)]

lemma interpretPayload_gv_oob (s : HlaState)
    (hrd : s.read = true) (hty : s.type = "get_voltage")
    (hp : s.payload.length < 3) :
    interpretPayload s = Except.error "IndexError" := by
  unfold interpretPayload
  rw [if_neg (by simp [hty]), if_neg (by simp [hrd]), if_pos ⟨hrd, hty⟩]
  rcases hl : s.payload with - | ⟨a, - | ⟨b, - | ⟨c, tl⟩⟩⟩
  · rfl
  · rfl
  · rfl
  · rw [hl] at hp; simp only [List.length_cons] at hp; omega

lemma interpretPayload_sv_oob (s : HlaState)
    (hty : s.type = "set_voltage") (hp : s.payload.length < 2) :
    interpretPayload s = Except.error "IndexError" := by
  unfold interpretPayload
  rw [if_neg (by simp [hty]), if_neg (by simp [hty]), if_neg (by simp [hty]),
      if_pos hty]
  rcases hl : s.payload with - | ⟨a, - | ⟨b, tl⟩⟩
  · rfl
  · rfl
  · rw [hl] at hp; simp only [List.length_cons] at hp; omega

lemma interpretPayload_fw_ok (s : HlaState) (b : Nat) (tl : List Nat)
    (hrd : s.read = true) (hty : s.type = "get_fw_version")
    (hl : s.payload = b :: tl) :
    interpretPayload s = Except.ok (PayloadOut.str (Nat.repr b)) := by
  unfold interpretPayload
  rw [if_pos ⟨hrd, hty⟩, hl]
  rfl

lemma interpretPayload_ps_ok (s : HlaState) (b : Nat) (tl : List Nat)
    (hrd : s.read = false) (hty : s.type = "power_switch")
    (hl : s.payload = b :: tl) :
    interpretPayload s =
      Except.ok (if b = 0 then PayloadOut.str "OFF"
                 else PayloadOut.str "ON") := by
  unfold interpretPayload
  rw [if_neg (by simp [hty]), if_pos ⟨hrd, hty⟩, hl]
  rfl

lemma interpretPayload_gv_ok (s : HlaState) (a b c : Nat) (tl : List Nat)
    (hrd : s.read = true) (hty : s.type = "get_voltage")
    (hl : s.payload = a :: b :: c :: tl) :
    interpretPayload s =
      Except.ok (PayloadOut.voltage ((b : Int) * 256 + (c : Int))) := by
  unfold interpretPayload
  rw [if_neg (by simp [hty]), if_neg (by simp [hrd]), if_pos ⟨hrd, hty⟩, hl]
  rfl

lemma interpretPayload_sv_ok (s : HlaState) (a b : Nat) (tl : List Nat)
    (hty : s.type = "set_voltage") (hl : s.payload = a :: b :: tl) :
    interpretPayload s =
      Except.ok (PayloadOut.voltage ((a : Int) * 256 + (b : Int))) := by
  unfold interpretPayload
  rw [if_neg (by simp [hty]), if_neg (by simp [hty]), if_neg (by simp [hty]),
      if_pos hty, hl]
  rfl

lemma decodeData_checksum_calc (dev : String) (s : HlaState) (b : Nat)
    (hfu : s.for_us = true)
    (hnp : ¬ ((s.byte_pos = 0 ∨ s.byte_pos = 1) ∧ s.preamble_offset = 2))
    (hlo : 0 + s.preamble_offset ≤ s.byte_pos)
    (hhi : s.byte_pos < s.frame_len - 2 + s.preamble_offset) :
    (decodeData dev s b).checksum_calc = s.checksum_calc + (b : Int) := by
  unfold decodeData
  split_ifs <;> first | rfl | omega | simp_all

lemma decodeStop_emits_of_interpret (s : HlaState) (t : Nat) (p : PayloadOut)
    (hfu : s.for_us = true)
    (hpos : s.byte_pos = s.frame_len - 1 + s.preamble_offset)
    (hip : interpretPayload s = Except.ok p) :
    ∃ s' out, decodeStop s t = Except.ok (s', some out) := by
  have h : decodeStop s t = Except.ok
      ({ s with end_of_frame := some t, last_read := s.read, byte_pos := 0,
                frame_len := 99, payload := [], checksum_read := 0,
                checksum_calc := 0,
                start_of_frame := s.start_of_transaction },
       some
        { type := if s.read = true ∧ (s.type = "set_something_3" ∨
              s.type = "power_switch" ∨ s.type = "get_voltage" ∨
              s.type = "get_something_9" ∨ s.type = "get_fw_version" ∨
              s.type = "get_something_5" ∨ s.type = "set_something_1")
              then s.type ++ "_resp" else s.type
          startT := s.start_of_frame
          endT := some t
          direction := if s.read = true then "response" else "request"
          len := s.frame_len.repr
          code := s.code.repr
          payload := p
          checksum := if s.checksum_read = 0 then "None"
                      else if s.checksum_read = s.checksum_calc then "OK"
                      else "KO" }) := by
    unfold decodeStop
    rw [if_neg (by simp [hfu]), if_pos hpos, hip]
  exact ⟨_, _, h⟩

lemma decodeData_short_proj (dev : String) (s : HlaState)
    (hfu : s.for_us = true) (hpos : s.byte_pos = 1 + s.preamble_offset) :
    (decodeData dev s 1).code = s.frame_len ∧
    (decodeData dev s 1).frame_len = 2 ∧
    (decodeData dev s 1).type = get_type dev s.frame_len ∧
    (decodeData dev s 1).payload = s.payload := by
  unfold decodeData
  split_ifs <;> first | exact ⟨rfl, rfl, rfl, rfl⟩ | omega | simp_all

lemma decodeData_code_proj (dev : String) (s : HlaState) (b : Nat)
    (hfu : s.for_us = true) (hpos : s.byte_pos = 1 + s.preamble_offset)
    (hb : ¬ b = 1) :
    (decodeData dev s b).code = (b : Int) ∧
    (decodeData dev s b).frame_len = s.frame_len ∧
    (decodeData dev s b).type = get_type dev (b : Int) := by
  unfold decodeData
  split_ifs <;> first | exact ⟨rfl, rfl, rfl⟩ | omega | simp_all

/-! Claim theorems. -/

/-- C1, counterexample: in a for-us dsPIC read transaction at byte position
0, processing a data byte leaves `byte_pos` at 0 — the data handler of
`Hla.decode` never advances the byte-position counter, contradicting the
claim that it advances by one after each data byte. -/
theorem data_event_does_not_advance_byte_pos :
    (runDecode "dsPIC" initState
        [I2cEvent.start 5, I2cEvent.address 32 true]).map
        (fun p => (p.1.for_us, p.1.byte_pos)) = Except.ok (true, 0) ∧
    (runDecode "dsPIC" initState
        [I2cEvent.start 5, I2cEvent.address 32 true, I2cEvent.data 2]).map
        (fun p => p.1.byte_pos) = Except.ok 0 :=
  ⟨rfl, rfl⟩

/-- C1, amended: data events never change `byte_pos`; the counter is
advanced by one on the stop event of each for-us transaction that does not
complete the frame, so successive positions arise across successive
(single-byte) transactions, not across data bytes within one
transaction. -/
theorem byte_pos_advances_on_stop_not_on_data (dev : String)
    (s sm : HlaState) (b : Nat) (t : Nat)
    (hfu : sm.for_us = true)
    (hne : ¬ sm.byte_pos = sm.frame_len - 1 + sm.preamble_offset) :
    (decodeData dev s b).byte_pos = s.byte_pos ∧
    decodeStop sm t =
      Except.ok ({ sm with end_of_frame := some t, last_read := sm.read,
                           byte_pos := sm.byte_pos + 1 }, none) :=
  ⟨decodeData_byte_pos dev s b, decodeStop_mid sm t hfu hne⟩

theorem byte_pos_advances_on_stop_not_on_data_witness :
    (decodeData "APW" initState 7).byte_pos = 0 ∧
    decodeStop { initState with for_us := true } 3 =
      Except.ok ({ initState with for_us := true, end_of_frame := some 3,
                                  last_read := false, byte_pos := 1 },
                 none) :=
  byte_pos_advances_on_stop_not_on_data "APW" initState
    { initState with for_us := true } 7 3 rfl (by decide)

/-- C4: the checksum verdict of every emitted frame is a pure three-way
function of the declared and computed checksums: "None" whenever the
declared checksum is zero (regardless of the computed value), otherwise
"OK" when declared equals computed, otherwise "KO". -/
theorem checksum_verdict_pure (s : HlaState) (t : Nat) (s' : HlaState)
    (out : FrameOut) (h : decodeStop s t = Except.ok (s', some out)) :
    (s.checksum_read = 0 → out.checksum = "None") ∧
    (¬ s.checksum_read = 0 → s.checksum_read = s.checksum_calc →
      out.checksum = "OK") ∧
    (¬ s.checksum_read = 0 → ¬ s.checksum_read = s.checksum_calc →
      out.checksum = "KO") := by
  obtain ⟨-, -, hck, -, -, -, -, -, -⟩ := decodeStop_emit_inv h
  refine ⟨fun h0 => ?_, fun h0 heq => ?_, fun h0 hne => ?_⟩
  · rw [hck, if_pos h0]
  · rw [hck, if_neg h0, if_pos heq]
  · rw [hck, if_neg h0, if_neg hne]

theorem checksum_verdict_pure_witness :
    ((0 : Int) = 0 → "None" = "None") ∧
    (¬ (0 : Int) = 0 → (0 : Int) = 0 → "None" = "OK") ∧
    (¬ (0 : Int) = 0 → ¬ (0 : Int) = 0 → "None" = "KO") :=
  checksum_verdict_pure
    { initState with for_us := true, byte_pos := 1, frame_len := 2,
                     preamble_offset := 0, read := true, type := "unknown",
                     code := 5 } 9
    { initState with for_us := true, byte_pos := 0, frame_len := 99,
                     preamble_offset := 0, read := true, type := "unknown",
                     code := 5, end_of_frame := some 9, last_read := true } 
    { type := "unknown", startT := none, endT := some 9,
      direction := "response", len := "2", code := "5",
      payload := PayloadOut.str "None", checksum := "None" } rfl

/-- C5: the declared checksum's byte order — at the first checksum position
the byte is stored as the low byte for an APW read and as the high byte
(shifted left 8) otherwise; at the second checksum position the byte is
added shifted left 8 for an APW read and as the low byte otherwise. -/
theorem checksum_byte_order (dev : String) (s s2 : HlaState) (b1 b2 : Nat)
    (hfu : s.for_us = true)
    (hpos : s.byte_pos = s.frame_len - 2 + s.preamble_offset)
    (h0 : ¬ s.byte_pos = 0 + s.preamble_offset)
    (h1 : ¬ s.byte_pos = 1 + s.preamble_offset)
    (hnp : ¬ ((s.byte_pos = 0 ∨ s.byte_pos = 1) ∧ s.preamble_offset = 2))
    (hfu2 : s2.for_us = true)
    (hpos2 : s2.byte_pos = s2.frame_len - 1 + s2.preamble_offset)
    (h02 : ¬ s2.byte_pos = 0 + s2.preamble_offset)
    (h12 : ¬ s2.byte_pos = 1 + s2.preamble_offset)
    (hnp2 : ¬ ((s2.byte_pos = 0 ∨ s2.byte_pos = 1) ∧
               s2.preamble_offset = 2)) :
    ((dev = "APW" ∧ s.read = true) →
      (decodeData dev s b1).checksum_read = (b1 : Int)) ∧
    (¬ (dev = "APW" ∧ s.read = true) →
      (decodeData dev s b1).checksum_read = (b1 : Int) * 256) ∧
    ((dev = "APW" ∧ s2.read = true) →
      (decodeData dev s2 b2).checksum_read =
        s2.checksum_read + (b2 : Int) * 256) ∧
    (¬ (dev = "APW" ∧ s2.read = true) →
      (decodeData dev s2 b2).checksum_read =
        s2.checksum_read + (b2 : Int)) := by
  rw [decodeData_chk1 dev s b1 hfu hpos h0 h1 hnp,
      decodeData_chk2 dev s2 b2 hfu2 hpos2 h02 h12 hnp2]
  refine ⟨fun hP => ?_, fun hQ => ?_, fun hP2 => ?_, fun hQ2 => ?_⟩
  · show (if dev = "APW" ∧ s.read = true then (b1 : Int)
          else (b1 : Int) * 256) = (b1 : Int)
    rw [if_pos hP]
  · show (if dev = "APW" ∧ s.read = true then (b1 : Int)
          else (b1 : Int) * 256) = (b1 : Int) * 256
    rw [if_neg hQ]
  · show s2.checksum_read +
        (if dev = "APW" ∧ s2.read = true then (b2 : Int) * 256
         else (b2 : Int)) = s2.checksum_read + (b2 : Int) * 256
    rw [if_pos hP2]
  · show s2.checksum_read +
        (if dev = "APW" ∧ s2.read = true then (b2 : Int) * 256
         else (b2 : Int)) = s2.checksum_read + (b2 : Int)
    rw [if_neg hQ2]

theorem checksum_byte_order_witness :
    (("APW" = "APW" ∧ true = true) →
      (decodeData "APW"
        { initState with for_us := true, read := true, byte_pos := 2,
                         frame_len := 4, preamble_offset := 0 }
        9).checksum_read = 9) ∧
    (¬ ("APW" = "APW" ∧ true = true) →
      (decodeData "APW"
        { initState with for_us := true, read := true, byte_pos := 2,
                         frame_len := 4, preamble_offset := 0 }
        9).checksum_read = 9 * 256) ∧
    (("APW" = "APW" ∧ true = true) →
      (decodeData "APW"
        { initState with for_us := true, read := true, byte_pos := 3,
                         frame_len := 4, preamble_offset := 0,
                         checksum_read := 7 }
        5).checksum_read = 7 + 5 * 256) ∧
    (¬ ("APW" = "APW" ∧ true = true) →
      (decodeData "APW"
        { initState with for_us := true, read := true, byte_pos := 3,
                         frame_len := 4, preamble_offset := 0,
                         checksum_read := 7 }
        5).checksum_read = 7 + 5) :=
  checksum_byte_order "APW"
    { initState with for_us := true, read := true, byte_pos := 2,
                     frame_len := 4, preamble_offset := 0 }
    { initState with for_us := true, read := true, byte_pos := 3,
                     frame_len := 4, preamble_offset := 0,
                     checksum_read := 7 }
    9 5 rfl (by decide) (by decide) (by decide) (by decide)
    rfl (by decide) (by decide) (by decide) (by decide)

/-- C6, counterexample: after an APW write frame with code byte 7 is
emitted, the post-emission state keeps `code = 7` and `type = "unknown"`
instead of the sentinels 99 and "" — `code` and `type` are not reset by the
emission, contradicting the claim that every In-Progress Frame field is
reset. -/
theorem code_and_type_not_reset_after_emission :
    (runDecode "APW" initState (txns 0 16 false [85, 170, 4, 7, 1, 2])).map
        (fun p => (p.2.length, p.1.code, p.1.type)) =
      Except.ok (1, 7, "unknown") ∧
    ¬ (7 : Int) = initState.code ∧ ¬ "unknown" = initState.type :=
  ⟨rfl, by decide, by decide⟩

/-- C6, amended: an emitting stop event resets `byte_pos`, `frame_len`,
`payload` and both checksums to their initial values and re-pins
`start_of_frame` to the ending transaction's start, but leaves `code` and
`type` at the finished frame's values (they are only overwritten when the
next frame's code byte arrives). -/
theorem emission_resets_core_fields (s : HlaState) (t : Nat) (s' : HlaState)
    (out : FrameOut) (h : decodeStop s t = Except.ok (s', some out)) :
    s'.byte_pos = 0 ∧ s'.frame_len = 99 ∧ s'.payload = [] ∧
    s'.checksum_read = 0 ∧ s'.checksum_calc = 0 ∧
    s'.start_of_frame = s.start_of_transaction ∧
    s'.code = s.code ∧ s'.type = s.type := by
  obtain ⟨-, -, -, -, -, -, -, -, hs'⟩ := decodeStop_emit_inv h
  subst hs'
  exact ⟨rfl, rfl, rfl, rfl, rfl, rfl, rfl, rfl⟩

theorem emission_resets_core_fields_witness :
    (0 : Int) = 0 ∧ (99 : Int) = 99 ∧ ([] : List Nat) = [] ∧
    (0 : Int) = 0 ∧ (0 : Int) = 0 ∧
    (none : Option Nat) = none ∧ (5 : Int) = 5 ∧ "unknown" = "unknown" :=
  emission_resets_core_fields
    { initState with for_us := true, byte_pos := 1, frame_len := 2,
                     preamble_offset := 0, read := true, type := "unknown",
                     code := 5 } 11
    { initState with for_us := true, byte_pos := 0, frame_len := 99,
                     preamble_offset := 0, read := true, type := "unknown",
                     code := 5, end_of_frame := some 11, last_read := true }
    { type := "unknown", startT := none, endT := some 11,
      direction := "response", len := "2", code := "5",
      payload := PayloadOut.str "None", checksum := "None" } rfl

/-- C7: the frame start timestamp is captured by a start event only when
`byte_pos = 0` and preserved otherwise; a stop event before the frame's
last position emits nothing and advances `byte_pos` by one; and in the
concrete repeated-start scenario (dsPIC read, length byte 2 then code byte
5, two transactions) exactly one frame is emitted, stamped with the first
transaction's start time 10, not the second's 20. -/
theorem repeated_start_preserves_frame (dev : String) (s sm : HlaState)
    (t u : Nat)
    (hfu : sm.for_us = true)
    (hne : ¬ sm.byte_pos = sm.frame_len - 1 + sm.preamble_offset) :
    decode dev s (I2cEvent.start t) =
      Except.ok ({ s with start_of_transaction := some t,
                          start_of_frame :=
                            if s.byte_pos = 0 then some t
                            else s.start_of_frame }, none) ∧
    decodeStop sm u =
      Except.ok ({ sm with end_of_frame := some u, last_read := sm.read,
                           byte_pos := sm.byte_pos + 1 }, none) ∧
    (runDecode "dsPIC" initState
        [I2cEvent.start 10, I2cEvent.address 32 true, I2cEvent.data 2,
         I2cEvent.stop 11, I2cEvent.start 20, I2cEvent.address 32 true,
         I2cEvent.data 5, I2cEvent.stop 21]).map
        (fun p => p.2.map fun o => (o.startT, o.endT)) =
      Except.ok [(some 10, some 21)] :=
  ⟨decode_start_eq dev s t, decodeStop_mid sm u hfu hne, rfl⟩

theorem repeated_start_preserves_frame_witness :
    decode "APW" initState (I2cEvent.start 0) =
      Except.ok ({ initState with start_of_transaction := some 0,
                                  start_of_frame := some 0 }, none) ∧
    decodeStop { initState with for_us := true, byte_pos := 1 } 3 =
      Except.ok ({ initState with for_us := true, end_of_frame := some 3,
                                  last_read := false, byte_pos := 2 },
                 none) ∧
    (runDecode "dsPIC" initState
        [I2cEvent.start 10, I2cEvent.address 32 true, I2cEvent.data 2,
         I2cEvent.stop 11, I2cEvent.start 20, I2cEvent.address 32 true,
         I2cEvent.data 5, I2cEvent.stop 21]).map
        (fun p => p.2.map fun o => (o.startT, o.endT)) =
      Except.ok [(some 10, some 21)] :=
  repeated_start_preserves_frame "APW" initState
    { initState with for_us := true, byte_pos := 1 } 0 3 rfl (by decide)

/-- C8: an address event whose byte differs from the configured profile's
target (0x10 for APW, 0x20 for dsPIC) only clears `for_us`; and on a
not-for-us transaction, data and stop events return the state unchanged
with no output. -/
theorem address_mismatch_ignored (dev : String) (s s1 s2 : HlaState)
    (addr : Nat) (rd : Bool) (b : Nat) (t : Nat)
    (hdev : (dev = "APW" ∧ ¬ addr = 16) ∨ (dev = "dsPIC" ∧ ¬ addr = 32))
    (hfu1 : s1.for_us = false) (hfu2 : s2.for_us = false) :
    decode dev s (I2cEvent.address addr rd) =
      Except.ok ({ s with for_us := false }, none) ∧
    decode dev s1 (I2cEvent.data b) = Except.ok (s1, none) ∧
    decode dev s2 (I2cEvent.stop t) = Except.ok (s2, none) := by
  refine ⟨?_, ?_, ?_⟩
  · apply decode_addr_mismatch
    rcases hdev with ⟨hd, ha⟩ | ⟨hd, ha⟩ <;> subst hd <;>
      simpa [expectedAddr] using ha
  · rw [decode_data_eq, decodeData_not_for_us dev s1 b hfu1]
  · rw [decode_stop_eq, decodeStop_not_for_us s2 t hfu2]

theorem address_mismatch_ignored_witness :
    decode "APW" initState (I2cEvent.address 33 true) =
      Except.ok ({ initState with for_us := false }, none) ∧
    decode "APW" initState (I2cEvent.data 5) =
      Except.ok (initState, none) ∧
    decode "APW" initState (I2cEvent.stop 4) =
      Except.ok (initState, none) :=
  address_mismatch_ignored "APW" initState initState initState 33 true 5 4
    (Or.inl ⟨rfl, by decide⟩) rfl rfl

/-- C3: at the code position a byte equal to 1 selects the short-frame
encoding — the command code becomes the previously parsed length byte and
`declared_length` is forced to 2, leaving the payload untouched — while any
other byte becomes the code directly with the length unchanged; concretely,
the APW-profile bytes 23, 1, chk, chk (after a valid preamble) decode to a
single frame of code 23, declared length 2 and no payload. -/
theorem short_frame_encoding (dev : String) (s : HlaState) (b : Nat)
    (hfu : s.for_us = true)
    (hpos : s.byte_pos = 1 + s.preamble_offset)
    (hb : ¬ b = 1) :
    (decodeData dev s 1).code = s.frame_len ∧
    (decodeData dev s 1).frame_len = 2 ∧
    (decodeData dev s 1).payload = s.payload ∧
    (decodeData dev s b).code = (b : Int) ∧
    (decodeData dev s b).frame_len = s.frame_len ∧
    (runDecode "APW" initState (txns 0 16 false [85, 170, 23, 1, 7, 9])).map
        (fun p => p.2.map fun o => (o.code, o.len, o.payload)) =
      Except.ok [("23", "2", PayloadOut.str "None")] := by
  obtain ⟨h1, h2, -, h4⟩ := decodeData_short_proj dev s hfu hpos
  obtain ⟨h5, h6, -⟩ := decodeData_code_proj dev s b hfu hpos hb
  exact ⟨h1, h2, h4, h5, h6, rfl⟩

theorem short_frame_encoding_witness :
    (decodeData "APW"
      { initState with for_us := true, byte_pos := 3, preamble_offset := 2,
                       frame_len := 23 } 1).code = 23 ∧
    (decodeData "APW"
      { initState with for_us := true, byte_pos := 3, preamble_offset := 2,
                       frame_len := 23 } 1).frame_len = 2 ∧
    (decodeData "APW"
      { initState with for_us := true, byte_pos := 3, preamble_offset := 2,
                       frame_len := 23 } 1).payload = [] ∧
    (decodeData "APW"
      { initState with for_us := true, byte_pos := 3, preamble_offset := 2,
                       frame_len := 23 } 7).code = 7 ∧
    (decodeData "APW"
      { initState with for_us := true, byte_pos := 3, preamble_offset := 2,
                       frame_len := 23 } 7).frame_len = 23 ∧
    (runDecode "APW" initState (txns 0 16 false [85, 170, 23, 1, 7, 9])).map
        (fun p => p.2.map fun o => (o.code, o.len, o.payload)) =
      Except.ok [("23", "2", PayloadOut.str "None")] :=
  short_frame_encoding "APW"
    { initState with for_us := true, byte_pos := 3, preamble_offset := 2,
                     frame_len := 23 } 7 rfl (by decide) (by decide)

/-- C9: the stop handler's payload interpretation is total only under
per-type payload-length preconditions — a completed `get_fw_version` read
or `power_switch` write needs at least 1 payload byte, a `get_voltage` read
at least 3, a `set_voltage` frame (either direction) at least 2; shorter
payloads make the stop event fail with the out-of-range IndexError instead
of emitting, while payloads meeting the bound emit a frame. -/
theorem payload_interpretation_totality :
    (∀ s : HlaState, ∀ t : Nat, s.for_us = true →
      s.byte_pos = s.frame_len - 1 + s.preamble_offset →
      s.read = true → s.type = "get_fw_version" → s.payload.length < 1 →
      decodeStop s t = Except.error "IndexError") ∧
    (∀ s : HlaState, ∀ t : Nat, s.for_us = true →
      s.byte_pos = s.frame_len - 1 + s.preamble_offset →
      s.read = false → s.type = "power_switch" → s.payload.length < 1 →
      decodeStop s t = Except.error "IndexError") ∧
    (∀ s : HlaState, ∀ t : Nat, s.for_us = true →
      s.byte_pos = s.frame_len - 1 + s.preamble_offset →
      s.read = true → s.type = "get_voltage" → s.payload.length < 3 →
      decodeStop s t = Except.error "IndexError") ∧
    (∀ s : HlaState, ∀ t : Nat, s.for_us = true →
      s.byte_pos = s.frame_len - 1 + s.preamble_offset →
      s.type = "set_voltage" → s.payload.length < 2 →
      decodeStop s t = Except.error "IndexError") ∧
    (∀ s : HlaState, ∀ t b : Nat, ∀ tl : List Nat, s.for_us = true →
      s.byte_pos = s.frame_len - 1 + s.preamble_offset →
      s.read = true → s.type = "get_fw_version" → s.payload = b :: tl →
      ∃ s' out, decodeStop s t = Except.ok (s', some out)) ∧
    (∀ s : HlaState, ∀ t b : Nat, ∀ tl : List Nat, s.for_us = true →
      s.byte_pos = s.frame_len - 1 + s.preamble_offset →
      s.read = false → s.type = "power_switch" → s.payload = b :: tl →
      ∃ s' out, decodeStop s t = Except.ok (s', some out)) ∧
    (∀ s : HlaState, ∀ t a b c : Nat, ∀ tl : List Nat, s.for_us = true →
      s.byte_pos = s.frame_len - 1 + s.preamble_offset →
      s.read = true → s.type = "get_voltage" →
      s.payload = a :: b :: c :: tl →
      ∃ s' out, decodeStop s t = Except.ok (s', some out)) ∧
    (∀ s : HlaState, ∀ t a b : Nat, ∀ tl : List Nat, s.for_us = true →
      s.byte_pos = s.frame_len - 1 + s.preamble_offset →
      s.type = "set_voltage" → s.payload = a :: b :: tl →
      ∃ s' out, decodeStop s t = Except.ok (s', some out)) := by
  refine ⟨?_, ?_, ?_, ?_, ?_, ?_, ?_, ?_⟩
  · intro s t hfu hpos hrd hty hp
    exact decodeStop_error_of_interpret s t hfu hpos
      (interpretPayload_fw_oob s hrd hty hp)
  · intro s t hfu hpos hrd hty hp
    exact decodeStop_error_of_interpret s t hfu hpos
      (interpretPayload_ps_oob s hrd hty hp)
  · intro s t hfu hpos hrd hty hp
    exact decodeStop_error_of_interpret s t hfu hpos
      (interpretPayload_gv_oob s hrd hty hp)
  · intro s t hfu hpos hty hp
    exact decodeStop_error_of_interpret s t hfu hpos
      (interpretPayload_sv_oob s hty hp)
  · intro s t b tl hfu hpos hrd hty hl
    exact decodeStop_emits_of_interpret s t _ hfu hpos
      (interpretPayload_fw_ok s b tl hrd hty hl)
  · intro s t b tl hfu hpos hrd hty hl
    exact decodeStop_emits_of_interpret s t _ hfu hpos
      (interpretPayload_ps_ok s b tl hrd hty hl)
  · intro s t a b c tl hfu hpos hrd hty hl
    exact decodeStop_emits_of_interpret s t _ hfu hpos
      (interpretPayload_gv_ok s a b c tl hrd hty hl)
  · intro s t a b tl hfu hpos hty hl
    exact decodeStop_emits_of_interpret s t _ hfu hpos
      (interpretPayload_sv_ok s a b tl hty hl)

theorem payload_interpretation_totality_witness :
    decodeStop { initState with for_us := true, byte_pos := 1,
                                frame_len := 2, preamble_offset := 0,
                                read := true, type := "get_fw_version" } 4 =
      Except.error "IndexError" ∧
    ∃ s' out,
      decodeStop { initState with for_us := true, byte_pos := 1,
                                  frame_len := 2, preamble_offset := 0,
                                  read := true, type := "get_fw_version",
                                  payload := [3] } 4 =
        Except.ok (s', some out) :=
  ⟨payload_interpretation_totality.1 _ 4 rfl (by decide) rfl rfl (by decide),
   payload_interpretation_totality.2.2.2.2.1 _ 4 3 [] rfl (by decide) rfl rfl
     rfl⟩

/-- C10: the running checksum accumulator is an exact integer sum with no
modular reduction, the declared checksum assembled from two bytes below 256
is at most 0xFFFF, and consequently a frame completing with an accumulated
sum above 0xFFFF can never get the "OK" verdict. -/
theorem oversized_checksum_never_valid (dev : String)
    (s0 sa sb sc : HlaState) (b0 ba bb : Nat) (t : Nat) (s' : HlaState)
    (out : FrameOut)
    (hfu0 : s0.for_us = true)
    (hnp0 : ¬ ((s0.byte_pos = 0 ∨ s0.byte_pos = 1) ∧ s0.preamble_offset = 2))
    (hlo0 : 0 + s0.preamble_offset ≤ s0.byte_pos)
    (hhi0 : s0.byte_pos < s0.frame_len - 2 + s0.preamble_offset)
    (hfua : sa.for_us = true)
    (hposa : sa.byte_pos = sa.frame_len - 2 + sa.preamble_offset)
    (h0a : ¬ sa.byte_pos = 0 + sa.preamble_offset)
    (h1a : ¬ sa.byte_pos = 1 + sa.preamble_offset)
    (hnpa : ¬ ((sa.byte_pos = 0 ∨ sa.byte_pos = 1) ∧ sa.preamble_offset = 2))
    (hfub : sb.for_us = true)
    (hposb : sb.byte_pos = sb.frame_len - 1 + sb.preamble_offset)
    (h0b : ¬ sb.byte_pos = 0 + sb.preamble_offset)
    (h1b : ¬ sb.byte_pos = 1 + sb.preamble_offset)
    (hnpb : ¬ ((sb.byte_pos = 0 ∨ sb.byte_pos = 1) ∧ sb.preamble_offset = 2))
    (hrb : sb.checksum_read = (decodeData dev sa ba).checksum_read)
    (hrdb : sb.read = sa.read)
    (hba : ba ≤ 255) (hbb : bb ≤ 255)
    (hc : decodeStop sc t = Except.ok (s', some out))
    (hbig : 65535 < sc.checksum_calc) (hsmall : sc.checksum_read ≤ 65535) :
    (decodeData dev s0 b0).checksum_calc = s0.checksum_calc + (b0 : Int) ∧
    (decodeData dev sb bb).checksum_read ≤ 65535 ∧
    ¬ out.checksum = "OK" := by
  obtain ⟨-, -, hck, -, -, -, -, -, -⟩ := decodeStop_emit_inv hc
  refine ⟨decodeData_checksum_calc dev s0 b0 hfu0 hnp0 hlo0 hhi0, ?_, ?_⟩
  · have p1 : (decodeData dev sb bb).checksum_read =
        sb.checksum_read +
          (if dev = "APW" ∧ sb.read = true then (bb : Int) * 256
           else (bb : Int)) := by
      rw [decodeData_chk2 dev sb bb hfub hposb h0b h1b hnpb]
    have p2 : (decodeData dev sa ba).checksum_read =
        (if dev = "APW" ∧ sa.read = true then (ba : Int)
         else (ba : Int) * 256) := by
      rw [decodeData_chk1 dev sa ba hfua hposa h0a h1a hnpa]
    rw [p1, hrb, p2, hrdb]
    by_cases hP : dev = "APW" ∧ sa.read = true
    · rw [if_pos hP, if_pos hP]
      have hba' : (ba : Int) ≤ 255 := by exact_mod_cast hba
      have hbb' : (bb : Int) ≤ 255 := by exact_mod_cast hbb
      omega
    · rw [if_neg hP, if_neg hP]
      have hba' : (ba : Int) ≤ 255 := by exact_mod_cast hba
      have hbb' : (bb : Int) ≤ 255 := by exact_mod_cast hbb
      omega
  · have hne : ¬ sc.checksum_read = sc.checksum_calc := by omega
    rw [hck]
    by_cases h0 : sc.checksum_read = 0
    · rw [if_pos h0]; decide
    · rw [if_neg h0, if_neg hne]; decide

theorem oversized_checksum_never_valid_witness :
    (decodeData "APW"
      { initState with for_us := true, preamble_offset := 0 }
      7).checksum_calc = 0 + 7 ∧
    (decodeData "APW"
      { initState with for_us := true, read := false, byte_pos := 3,
                       frame_len := 4, preamble_offset := 0,
                       checksum_read := 65280 } 255).checksum_read ≤ 65535 ∧
    ¬ (FrameOut.mk "unknown" none (some 9) "request" "2" "8"
        (PayloadOut.str "None") "KO").checksum = "OK" :=
  oversized_checksum_never_valid "APW"
    { initState with for_us := true, preamble_offset := 0 }
    { initState with for_us := true, read := false, byte_pos := 2,
                     frame_len := 4, preamble_offset := 0 }
    { initState with for_us := true, read := false, byte_pos := 3,
                     frame_len := 4, preamble_offset := 0,
                     checksum_read := 65280 }
    { initState with for_us := true, byte_pos := 1, frame_len := 2,
                     preamble_offset := 0, read := false,
                     type := "unknown", code := 8, checksum_read := 500,
                     checksum_calc := 70000 }
    7 255 255 9
    { initState with for_us := true, read := false, type := "unknown",
                     code := 8, end_of_frame := some 9, last_read := false }
    (FrameOut.mk "unknown" none (some 9) "request" "2" "8"
      (PayloadOut.str "None") "KO")
    rfl (by decide) (by decide) (by decide)
    rfl (by decide) (by decide) (by decide) (by decide)
    rfl (by decide) (by decide) (by decide) (by decide)
    rfl rfl (by decide) (by decide)
    rfl (by decide) (by decide)

lemma txns_cons_append (t a : Nat) (rd : Bool) (b : Nat) (bs : List Nat)
    (tail : List I2cEvent) :
    txns t a rd (b :: bs) ++ tail =
      txn t a rd b ++ (txns (t + 2) a rd bs ++ tail) := by
  simp [txns, List.append_assoc]

/-- C2, counterexample: the APW write short frame 0x55 0xAA 23 0x01 reaches
its completion position (`byte_pos = frame_len - 1 + preamble_offset`) with
`checksum_calc = 24` — the length byte 23 and the code byte 1 were
accumulated — while the claimed region
`[preamble_length, declared_length - 2 + preamble_length)` is empty for the
final declared length 2 and sums to 0. -/
theorem short_frame_checksum_region_mismatch :
    (runDecode "APW" initState
        (txns 0 16 false [85, 170, 23] ++
         [I2cEvent.start 6, I2cEvent.address 16 false,
          I2cEvent.data 1])).map
        (fun p => (p.1.byte_pos, p.1.frame_len, p.1.preamble_offset,
                   p.1.checksum_calc, p.2)) =
      Except.ok (3, 2, 2, 24, []) ∧
    specRegionSum 2 2 [85, 170, 23, 1] = 0 ∧
    ¬ (24 : Int) = specRegionSum 2 2 [85, 170, 23, 1] :=
  ⟨rfl, by decide, by decide⟩


/-- One single-byte for-us transaction whose stop does not complete the
frame, starting at a nonzero byte position.  `a` is the configured
profile's target address and `p` the preamble offset the address event
establishes for direction `rd`. -/
lemma run_txn_step (dev : String) (a : Nat) (rd : Bool) (p : Int)
    (ha : a = expectedAddr dev)
    (hp : (if rd = true ∧ dev = "dsPIC" then (0 : Int) else 2) = p)
    (s s2 : HlaState) (t b : Nat) (evs : List I2cEvent)
    (h0 : ¬ s.byte_pos = 0)
    (hdata : decodeData dev
        { s with start_of_transaction := some t, read := rd,
                 for_us := true, preamble_offset := p } b = s2)
    (hfu2 : s2.for_us = true)
    (hne : ¬ s2.byte_pos = s2.frame_len - 1 + s2.preamble_offset) :
    runDecode dev s (txn t a rd b ++ evs) =
      runDecode dev { s2 with end_of_frame := some (t + 1),
                              last_read := s2.read,
                              byte_pos := s2.byte_pos + 1 } evs := by
  have e1 : decode dev s (I2cEvent.start t) =
      Except.ok ({ s with start_of_transaction := some t }, none) :=
    decode_start_mid dev s t h0
  have e2 : decode dev { s with start_of_transaction := some t }
        (I2cEvent.address a rd) =
      Except.ok ({ s with start_of_transaction := some t, read := rd,
                          for_us := true, preamble_offset := p }, none) := by
    rw [decode_addr_match dev _ a rd ha, hp]
  have e3 : decode dev
        { s with start_of_transaction := some t, read := rd,
                 for_us := true, preamble_offset := p }
        (I2cEvent.data b) = Except.ok (s2, none) := by
    rw [decode_data_eq, hdata]
  have e4 : decode dev s2 (I2cEvent.stop (t + 1)) =
      Except.ok ({ s2 with end_of_frame := some (t + 1),
                           last_read := s2.read,
                           byte_pos := s2.byte_pos + 1 }, none) :=
    (decode_stop_eq dev s2 (t + 1)).trans (decodeStop_mid s2 (t + 1) hfu2 hne)
  rw [show txn t a rd b ++ evs =
      I2cEvent.start t :: I2cEvent.address a rd :: I2cEvent.data b ::
      I2cEvent.stop (t + 1) :: evs from rfl]
  rw [runDecode_cons_none _ e1, runDecode_cons_none _ e2,
      runDecode_cons_none _ e3, runDecode_cons_none _ e4]

/-- Like `run_txn_step`, at byte position zero (the frame-start
transaction), so the frame start timestamp is also captured. -/
lemma run_txn_step_zero (dev : String) (a : Nat) (rd : Bool) (p : Int)
    (ha : a = expectedAddr dev)
    (hp : (if rd = true ∧ dev = "dsPIC" then (0 : Int) else 2) = p)
    (s s2 : HlaState) (t b : Nat) (evs : List I2cEvent)
    (h0 : s.byte_pos = 0)
    (hdata : decodeData dev
        { s with start_of_transaction := some t, start_of_frame := some t,
                 read := rd, for_us := true, preamble_offset := p } b = s2)
    (hfu2 : s2.for_us = true)
    (hne : ¬ s2.byte_pos = s2.frame_len - 1 + s2.preamble_offset) :
    runDecode dev s (txn t a rd b ++ evs) =
      runDecode dev { s2 with end_of_frame := some (t + 1),
                              last_read := s2.read,
                              byte_pos := s2.byte_pos + 1 } evs := by
  have e1 : decode dev s (I2cEvent.start t) =
      Except.ok ({ s with start_of_transaction := some t,
                          start_of_frame := some t }, none) :=
    decode_start_zero dev s t h0
  have e2 : decode dev
        { s with start_of_transaction := some t, start_of_frame := some t }
        (I2cEvent.address a rd) =
      Except.ok ({ s with start_of_transaction := some t,
                          start_of_frame := some t, read := rd,
                          for_us := true, preamble_offset := p }, none) := by
    rw [decode_addr_match dev _ a rd ha, hp]
  have e3 : decode dev
        { s with start_of_transaction := some t, start_of_frame := some t,
                 read := rd, for_us := true, preamble_offset := p }
        (I2cEvent.data b) = Except.ok (s2, none) := by
    rw [decode_data_eq, hdata]
  have e4 : decode dev s2 (I2cEvent.stop (t + 1)) =
      Except.ok ({ s2 with end_of_frame := some (t + 1),
                           last_read := s2.read,
                           byte_pos := s2.byte_pos + 1 }, none) :=
    (decode_stop_eq dev s2 (t + 1)).trans (decodeStop_mid s2 (t + 1) hfu2 hne)
  rw [show txn t a rd b ++ evs =
      I2cEvent.start t :: I2cEvent.address a rd :: I2cEvent.data b ::
      I2cEvent.stop (t + 1) :: evs from rfl]
  rw [runDecode_cons_none _ e1, runDecode_cons_none _ e2,
      runDecode_cons_none _ e3, runDecode_cons_none _ e4]

/-- One single-byte payload transaction: the byte is appended to `payload`
and added to `checksum_calc` by the data event, and `byte_pos` advances on
the stop event. -/
lemma run_payload_txn (dev : String) (a : Nat) (rd : Bool) (p : Int)
    (ha : a = expectedAddr dev)
    (hp : (if rd = true ∧ dev = "dsPIC" then (0 : Int) else 2) = p)
    (s : HlaState) (t b : Nat) (evs : List I2cEvent)
    (hlo : 2 + p ≤ s.byte_pos) (hhi : s.byte_pos < s.frame_len - 2 + p) :
    runDecode dev s (txn t a rd b ++ evs) =
      runDecode dev
        { s with start_of_transaction := some t, end_of_frame := some (t + 1),
                 read := rd, last_read := rd, for_us := true,
                 preamble_offset := p,
                 checksum_calc := s.checksum_calc + (b : Int),
                 payload := s.payload ++ [b],
                 byte_pos := s.byte_pos + 1 } evs := by
  have hpge : (0 : Int) ≤ p := by
    rcases Decidable.em (rd = true ∧ dev = "dsPIC") with h | h
    · rw [if_pos h] at hp; omega
    · rw [if_neg h] at hp; omega
  have h0 : ¬ s.byte_pos = 0 := by omega
  have hdata : decodeData dev
      { s with start_of_transaction := some t, read := rd,
               for_us := true, preamble_offset := p } b =
      { s with start_of_transaction := some t, read := rd,
               for_us := true, preamble_offset := p,
               checksum_calc := s.checksum_calc + (b : Int),
               payload := s.payload ++ [b] } := by
    refine decodeData_payload_byte dev _ b rfl ?_ ?_
    · show 2 + p ≤ s.byte_pos
      exact hlo
    · show s.byte_pos < s.frame_len - 2 + p
      exact hhi
  refine run_txn_step dev a rd p ha hp s _ t b evs h0 hdata ?_ ?_
  · rfl
  · show ¬ s.byte_pos = s.frame_len - 1 + p
    omega

/-- Feeding a list of payload bytes, one transaction each, from any
mid-frame state in the payload region. -/
lemma run_payload_phase (dev : String) (a : Nat) (rd : Bool) (p : Int)
    (ha : a = expectedAddr dev)
    (hp : (if rd = true ∧ dev = "dsPIC" then (0 : Int) else 2) = p)
    (ps : List Nat) :
    ∀ (s : HlaState) (t : Nat) (evs : List I2cEvent),
      s.for_us = true → s.preamble_offset = p → s.read = rd →
      2 + p ≤ s.byte_pos →
      s.byte_pos + (ps.length : Int) ≤ s.frame_len - 2 + p →
      ∃ s' : HlaState,
        runDecode dev s (txns t a rd ps ++ evs) = runDecode dev s' evs ∧
        s'.for_us = true ∧ s'.preamble_offset = p ∧ s'.read = rd ∧
        s'.byte_pos = s.byte_pos + (ps.length : Int) ∧
        s'.frame_len = s.frame_len ∧
        s'.payload = s.payload ++ ps ∧
        s'.checksum_calc = s.checksum_calc + intSum ps ∧
        s'.checksum_read = s.checksum_read ∧
        s'.start_of_frame = s.start_of_frame ∧
        s'.code = s.code ∧ s'.type = s.type := by
  induction ps with
  | nil =>
      intro s t evs hfu hpre hrd hlo hhi
      refine ⟨s, by simp [txns], hfu, hpre, hrd, by simp, rfl, by simp,
              by simp [intSum], rfl, rfl, rfl, rfl⟩
  | cons b bs ih =>
      intro s t evs hfu hpre hrd hlo hhi
      have hlen : s.byte_pos + (bs.length : Int) + 1 ≤
          s.frame_len - 2 + p := by
        simp only [List.length_cons] at hhi
        push_cast at hhi
        omega
      rw [show txns t a rd (b :: bs) ++ evs =
          txn t a rd b ++ (txns (t + 2) a rd bs ++ evs) by
            simp [txns]]
      rw [run_payload_txn dev a rd p ha hp s t b _ hlo (by omega)]
      obtain ⟨s', hrun, hf, hpp, hr, hb, hfl, hpay, hcal, hcr, hsof, hcode,
              htype⟩ :=
        ih { s with start_of_transaction := some t,
                    end_of_frame := some (t + 1),
                    read := rd, last_read := rd, for_us := true,
                    preamble_offset := p,
                    checksum_calc := s.checksum_calc + (b : Int),
                    payload := s.payload ++ [b],
                    byte_pos := s.byte_pos + 1 }
           (t + 2) evs rfl rfl rfl
           (show 2 + p ≤ s.byte_pos + 1 by omega)
           (show s.byte_pos + 1 + (bs.length : Int) ≤
                s.frame_len - 2 + p by omega)
      refine ⟨s', hrun, hf, hpp, hr, ?_, hfl, ?_, ?_, hcr, hsof, hcode,
              htype⟩
      · rw [hb]; simp only [List.length_cons]; push_cast; ring
      · rw [hpay]; simp
      · rw [hcal]; rw [intSum_cons]; ring

/-- The two checksum-byte transactions closing a frame: one full
transaction carrying the first checksum byte, then a start/address/data
prefix carrying the second, leaving the state one stop event away from
emission. -/
lemma run_tail_phase (dev : String) (a : Nat) (rd : Bool) (p : Int)
    (ha : a = expectedAddr dev)
    (hp : (if rd = true ∧ dev = "dsPIC" then (0 : Int) else 2) = p)
    (s : HlaState) (n k1 k2 v u : Nat)
    (hbp : s.byte_pos = (n : Int) + 2 + p)
    (hfl : s.frame_len = (n : Int) + 4) :
    runDecode dev s
      (txns v a rd [k1] ++
       [I2cEvent.start u, I2cEvent.address a rd, I2cEvent.data k2]) =
      Except.ok
        ({ s with start_of_transaction := some u,
                  end_of_frame := some (v + 1),
                  read := rd, last_read := rd, for_us := true,
                  preamble_offset := p,
                  checksum_read :=
                    (if dev = "APW" ∧ rd = true then (k1 : Int)
                     else (k1 : Int) * 256) +
                    (if dev = "APW" ∧ rd = true then (k2 : Int) * 256
                     else (k2 : Int)),
                  byte_pos := s.byte_pos + 1 }, []) := by
  have hpge : (0 : Int) ≤ p := by
    rcases Decidable.em (rd = true ∧ dev = "dsPIC") with h | h
    · rw [if_pos h] at hp; omega
    · rw [if_neg h] at hp; omega
  have hd1 : decodeData dev
      { s with start_of_transaction := some v, read := rd,
               for_us := true, preamble_offset := p } k1 =
      { s with start_of_transaction := some v, read := rd,
               for_us := true, preamble_offset := p,
               checksum_read :=
                 if dev = "APW" ∧ rd = true then (k1 : Int)
                 else (k1 : Int) * 256 } := by
    refine decodeData_chk1 dev _ k1 rfl ?_ ?_ ?_ ?_
    · show s.byte_pos = s.frame_len - 2 + p
      omega
    · show ¬ s.byte_pos = 0 + p
      omega
    · show ¬ s.byte_pos = 1 + p
      omega
    · show ¬ ((s.byte_pos = 0 ∨ s.byte_pos = 1) ∧ p = 2)
      omega
  have step1 : runDecode dev s
      (txns v a rd [k1] ++
       [I2cEvent.start u, I2cEvent.address a rd, I2cEvent.data k2]) =
      runDecode dev
      { s with start_of_transaction := some v, end_of_frame := some (v + 1),
               read := rd, last_read := rd, for_us := true,
               preamble_offset := p,
               checksum_read :=
                 if dev = "APW" ∧ rd = true then (k1 : Int)
                 else (k1 : Int) * 256,
               byte_pos := s.byte_pos + 1 }
      [I2cEvent.start u, I2cEvent.address a rd, I2cEvent.data k2] := by
    refine run_txn_step dev a rd p ha hp s _ v k1 _ ?_ hd1 rfl ?_
    · show ¬ s.byte_pos = 0
      omega
    · show ¬ s.byte_pos = s.frame_len - 1 + p
      omega
  have e1 : decode dev
      { s with start_of_transaction := some v, end_of_frame := some (v + 1),
               read := rd, last_read := rd, for_us := true,
               preamble_offset := p,
               checksum_read :=
                 if dev = "APW" ∧ rd = true then (k1 : Int)
                 else (k1 : Int) * 256,
               byte_pos := s.byte_pos + 1 }
      (I2cEvent.start u) =
      Except.ok
        ({ s with start_of_transaction := some u,
                  end_of_frame := some (v + 1),
                  read := rd, last_read := rd, for_us := true,
                  preamble_offset := p,
                  checksum_read :=
                    if dev = "APW" ∧ rd = true then (k1 : Int)
                    else (k1 : Int) * 256,
                  byte_pos := s.byte_pos + 1 }, none) := by
    refine decode_start_mid dev _ u ?_
    show ¬ s.byte_pos + 1 = 0
    omega
  have e2 : decode dev
      { s with start_of_transaction := some u,
               end_of_frame := some (v + 1),
               read := rd, last_read := rd, for_us := true,
               preamble_offset := p,
               checksum_read :=
                 if dev = "APW" ∧ rd = true then (k1 : Int)
                 else (k1 : Int) * 256,
               byte_pos := s.byte_pos + 1 }
      (I2cEvent.address a rd) =
      Except.ok
        ({ s with start_of_transaction := some u,
                  end_of_frame := some (v + 1),
                  read := rd, last_read := rd, for_us := true,
                  preamble_offset := p,
                  checksum_read :=
                    if dev = "APW" ∧ rd = true then (k1 : Int)
                    else (k1 : Int) * 256,
                  byte_pos := s.byte_pos + 1 }, none) := by
    rw [decode_addr_match dev _ a rd ha, hp]
  have hd2 : decodeData dev
      { s with start_of_transaction := some u,
               end_of_frame := some (v + 1),
               read := rd, last_read := rd, for_us := true,
               preamble_offset := p,
               checksum_read :=
                 if dev = "APW" ∧ rd = true then (k1 : Int)
                 else (k1 : Int) * 256,
               byte_pos := s.byte_pos + 1 } k2 =
      { s with start_of_transaction := some u,
               end_of_frame := some (v + 1),
               read := rd, last_read := rd, for_us := true,
               preamble_offset := p,
               checksum_read :=
                 (if dev = "APW" ∧ rd = true then (k1 : Int)
                  else (k1 : Int) * 256) +
                 (if dev = "APW" ∧ rd = true then (k2 : Int) * 256
                  else (k2 : Int)),
               byte_pos := s.byte_pos + 1 } := by
    refine decodeData_chk2 dev _ k2 rfl ?_ ?_ ?_ ?_
    · show s.byte_pos + 1 = s.frame_len - 1 + p
      omega
    · show ¬ s.byte_pos + 1 = 0 + p
      omega
    · show ¬ s.byte_pos + 1 = 1 + p
      omega
    · show ¬ ((s.byte_pos + 1 = 0 ∨ s.byte_pos + 1 = 1) ∧ p = 2)
      omega
  have e3 : decode dev
      { s with start_of_transaction := some u,
               end_of_frame := some (v + 1),
               read := rd, last_read := rd, for_us := true,
               preamble_offset := p,
               checksum_read :=
                 if dev = "APW" ∧ rd = true then (k1 : Int)
                 else (k1 : Int) * 256,
               byte_pos := s.byte_pos + 1 }
      (I2cEvent.data k2) =
      Except.ok
        ({ s with start_of_transaction := some u,
                  end_of_frame := some (v + 1),
                  read := rd, last_read := rd, for_us := true,
                  preamble_offset := p,
                  checksum_read :=
                    (if dev = "APW" ∧ rd = true then (k1 : Int)
                     else (k1 : Int) * 256) +
                    (if dev = "APW" ∧ rd = true then (k2 : Int) * 256
                     else (k2 : Int)),
                  byte_pos := s.byte_pos + 1 }, none) := by
    rw [decode_data_eq, hd2]
  rw [step1, runDecode_cons_none _ e1, runDecode_cons_none _ e2,
      runDecode_cons_none _ e3]
  rfl

set_option maxHeartbeats 4000000 in
/-- C2, amended: for every completed frame — on either device profile, in
either direction, so in particular also for dsPIC read responses with no
preamble — whose code byte `c` is not 1 (no short-frame encoding) and
whose declared length is `ps.length + 4`, the computed checksum at the
completion position is exactly the declared-length byte plus the code
byte plus the payload bytes — the bytes at positions
`[preamble_length, declared_length - 2 + preamble_length)` — with the
preamble bytes (when present) and the two checksum bytes `k1 k2`
excluded.  (For short frames the accumulator instead contains the length
byte and the code byte 1; see the counterexample.) -/
theorem checksum_accumulates_length_code_payload (dev : String) (rd : Bool)
    (ps : List Nat) (c k1 k2 t u : Nat) (hc : ¬ c = 1) :
    ∃ s : HlaState,
      runDecode dev initState
        (txns t (expectedAddr dev) rd
           ((if rd = true ∧ dev = "dsPIC" then ([] : List Nat)
             else [85, 170]) ++ [ps.length + 4, c] ++ ps ++ [k1]) ++
         [I2cEvent.start u, I2cEvent.address (expectedAddr dev) rd,
          I2cEvent.data k2]) =
        Except.ok (s, []) ∧
      s.frame_len = (ps.length : Int) + 4 ∧
      s.preamble_offset =
        (if rd = true ∧ dev = "dsPIC" then (0 : Int) else 2) ∧
      s.byte_pos = s.frame_len - 1 + s.preamble_offset ∧
      s.checksum_calc = ((ps.length : Int) + 4) + (c : Int) + intSum ps ∧
      s.checksum_read =
        (if dev = "APW" ∧ rd = true
         then (k1 : Int) + (k2 : Int) * 256
         else (k1 : Int) * 256 + (k2 : Int)) ∧
      s.payload = ps ∧
      s.start_of_frame = some t := by
  by_cases hP : rd = true ∧ dev = "dsPIC"
  · -- dsPIC read responses: no preamble, the length byte sits at position 0
    obtain ⟨hrd, hdev⟩ := hP
    subst hdev
    subst hrd
    have hd0 : decodeData "dsPIC"
        { initState with start_of_transaction := some t,
                         start_of_frame := some t, read := true,
                         for_us := true, preamble_offset := 0 }
        (ps.length + 4) =
        { initState with start_of_transaction := some t,
                         start_of_frame := some t, read := true,
                         for_us := true, preamble_offset := 0,
                         checksum_calc := 0 + ((ps.length + 4 : Nat) : Int),
                         frame_len := ((ps.length + 4 : Nat) : Int) } :=
      decodeData_len "dsPIC" _ (ps.length + 4) rfl
        (show (0 : Int) = 0 + 0 by decide)
        (show (0 : Int) < 99 - 2 + 0 by decide)
    have step1 : runDecode "dsPIC" initState
        (txns t (expectedAddr "dsPIC") true
           ((ps.length + 4) :: c :: (ps ++ [k1])) ++
         [I2cEvent.start u, I2cEvent.address (expectedAddr "dsPIC") true,
          I2cEvent.data k2]) =
        runDecode "dsPIC"
        { initState with start_of_transaction := some t,
                         start_of_frame := some t,
                         end_of_frame := some (t + 1),
                         read := true, last_read := true, for_us := true,
                         preamble_offset := 0, byte_pos := 1,
                         checksum_calc := 0 + ((ps.length + 4 : Nat) : Int),
                         frame_len := ((ps.length + 4 : Nat) : Int) }
        (txns (t + 2) (expectedAddr "dsPIC") true (c :: (ps ++ [k1])) ++
         [I2cEvent.start u, I2cEvent.address (expectedAddr "dsPIC") true,
          I2cEvent.data k2]) := by
      rw [txns_cons_append]
      exact run_txn_step_zero "dsPIC" _ true 0 rfl (by decide) initState _ t
        (ps.length + 4) _ rfl hd0 rfl
        (show ¬ (0 : Int) = ((ps.length + 4 : Nat) : Int) - 1 + 0 by
          push_cast; omega)
    have hd1 : decodeData "dsPIC"
        { initState with start_of_transaction := some (t + 2),
                         start_of_frame := some t,
                         end_of_frame := some (t + 1),
                         read := true, last_read := true, for_us := true,
                         preamble_offset := 0, byte_pos := 1,
                         checksum_calc := 0 + ((ps.length + 4 : Nat) : Int),
                         frame_len := ((ps.length + 4 : Nat) : Int) } c =
        { initState with start_of_transaction := some (t + 2),
                         start_of_frame := some t,
                         end_of_frame := some (t + 1),
                         read := true, last_read := true, for_us := true,
                         preamble_offset := 0, byte_pos := 1,
                         checksum_calc :=
                           0 + ((ps.length + 4 : Nat) : Int) + (c : Int),
                         frame_len := ((ps.length + 4 : Nat) : Int),
                         code := (c : Int),
                         type := get_type "dsPIC" (c : Int) } := by
      refine decodeData_code "dsPIC" _ c rfl
        (show (1 : Int) = 1 + 0 by decide) ?_ hc
      show (1 : Int) < ((ps.length + 4 : Nat) : Int) - 2 + 0
      push_cast; omega
    have step2 : runDecode "dsPIC"
        { initState with start_of_transaction := some t,
                         start_of_frame := some t,
                         end_of_frame := some (t + 1),
                         read := true, last_read := true, for_us := true,
                         preamble_offset := 0, byte_pos := 1,
                         checksum_calc := 0 + ((ps.length + 4 : Nat) : Int),
                         frame_len := ((ps.length + 4 : Nat) : Int) }
        (txns (t + 2) (expectedAddr "dsPIC") true (c :: (ps ++ [k1])) ++
         [I2cEvent.start u, I2cEvent.address (expectedAddr "dsPIC") true,
          I2cEvent.data k2]) =
        runDecode "dsPIC"
        { initState with start_of_transaction := some (t + 2),
                         start_of_frame := some t,
                         end_of_frame := some (t + 3),
                         read := true, last_read := true, for_us := true,
                         preamble_offset := 0, byte_pos := 2,
                         checksum_calc :=
                           0 + ((ps.length + 4 : Nat) : Int) + (c : Int),
                         frame_len := ((ps.length + 4 : Nat) : Int),
                         code := (c : Int),
                         type := get_type "dsPIC" (c : Int) }
        (txns (t + 4) (expectedAddr "dsPIC") true (ps ++ [k1]) ++
         [I2cEvent.start u, I2cEvent.address (expectedAddr "dsPIC") true,
          I2cEvent.data k2]) := by
      rw [txns_cons_append]
      refine run_txn_step "dsPIC" _ true 0 rfl (by decide)
        { initState with start_of_transaction := some t,
                         start_of_frame := some t,
                         end_of_frame := some (t + 1),
                         read := true, last_read := true, for_us := true,
                         preamble_offset := 0, byte_pos := 1,
                         checksum_calc := 0 + ((ps.length + 4 : Nat) : Int),
                         frame_len := ((ps.length + 4 : Nat) : Int) }
        _ (t + 2) c _ (show ¬ (1 : Int) = 0 by decide) hd1 rfl ?_
      show ¬ (1 : Int) = ((ps.length + 4 : Nat) : Int) - 1 + 0
      push_cast; omega
    obtain ⟨s', hrun, hf, hpp, hr, hbp, hfl, hpay, hcal, hcr, hsof, hcode,
            htype⟩ :=
      run_payload_phase "dsPIC" _ true 0 rfl (by decide) ps
        { initState with start_of_transaction := some (t + 2),
                         start_of_frame := some t,
                         end_of_frame := some (t + 3),
                         read := true, last_read := true, for_us := true,
                         preamble_offset := 0, byte_pos := 2,
                         checksum_calc :=
                           0 + ((ps.length + 4 : Nat) : Int) + (c : Int),
                         frame_len := ((ps.length + 4 : Nat) : Int),
                         code := (c : Int),
                         type := get_type "dsPIC" (c : Int) }
        (t + 4)
        (txns (t + 4 + 2 * ps.length) (expectedAddr "dsPIC") true [k1] ++
         [I2cEvent.start u, I2cEvent.address (expectedAddr "dsPIC") true,
          I2cEvent.data k2])
        rfl rfl rfl (show (2 : Int) + 0 ≤ 2 by decide)
        (show (2 : Int) + (ps.length : Int) ≤
            ((ps.length + 4 : Nat) : Int) - 2 + 0 by push_cast; omega)
    have hbp' : s'.byte_pos = 2 + (ps.length : Int) := hbp
    have hfl' : s'.frame_len = ((ps.length + 4 : Nat) : Int) := hfl
    have hcal' : s'.checksum_calc =
        0 + ((ps.length + 4 : Nat) : Int) + (c : Int) + intSum ps := hcal
    have hpay' : s'.payload = ps := hpay
    have hsof' : s'.start_of_frame = some t := hsof
    have htail := run_tail_phase "dsPIC" _ true 0 rfl (by decide) s'
        ps.length k1 k2 (t + 4 + 2 * ps.length) u
        (show s'.byte_pos = (ps.length : Int) + 2 + 0 by rw [hbp']; ring)
        (show s'.frame_len = (ps.length : Int) + 4 by
          rw [hfl']; push_cast; ring)
    have main : runDecode "dsPIC" initState
        (txns t (expectedAddr "dsPIC") true
           ((if (true : Bool) = true ∧ "dsPIC" = "dsPIC"
             then ([] : List Nat) else [85, 170]) ++
            [ps.length + 4, c] ++ ps ++ [k1]) ++
         [I2cEvent.start u, I2cEvent.address (expectedAddr "dsPIC") true,
          I2cEvent.data k2]) =
        Except.ok
          ({ s' with start_of_transaction := some u,
                     end_of_frame := some (t + 4 + 2 * ps.length + 1),
                     read := true, last_read := true, for_us := true,
                     preamble_offset := 0,
                     checksum_read :=
                       (if "dsPIC" = "APW" ∧ (true : Bool) = true
                        then (k1 : Int) else (k1 : Int) * 256) +
                       (if "dsPIC" = "APW" ∧ (true : Bool) = true
                        then (k2 : Int) * 256 else (k2 : Int)),
                     byte_pos := s'.byte_pos + 1 }, []) := by
      rw [show ((if (true : Bool) = true ∧ "dsPIC" = "dsPIC"
           then ([] : List Nat) else [85, 170]) ++
           [ps.length + 4, c] ++ ps ++ [k1]) =
          (ps.length + 4) :: c :: (ps ++ [k1]) by simp]
      rw [step1, step2]
      rw [show txns (t + 4) (expectedAddr "dsPIC") true (ps ++ [k1]) ++
          [I2cEvent.start u, I2cEvent.address (expectedAddr "dsPIC") true,
           I2cEvent.data k2] =
          txns (t + 4) (expectedAddr "dsPIC") true ps ++
            (txns (t + 4 + 2 * ps.length) (expectedAddr "dsPIC") true
               [k1] ++
             [I2cEvent.start u,
              I2cEvent.address (expectedAddr "dsPIC") true,
              I2cEvent.data k2]) by
        rw [txns_append, List.append_assoc]]
      rw [hrun]
      exact htail
    refine ⟨_, main, ?_, ?_, ?_, ?_, ?_, ?_, ?_⟩
    · show s'.frame_len = (ps.length : Int) + 4
      rw [hfl']; push_cast; ring
    · show (0 : Int) =
        if (true : Bool) = true ∧ "dsPIC" = "dsPIC" then (0 : Int) else 2
      decide
    · show s'.byte_pos + 1 = s'.frame_len - 1 + 0
      omega
    · show s'.checksum_calc = ((ps.length : Int) + 4) + (c : Int) + intSum ps
      rw [hcal']; push_cast; ring
    · show (if "dsPIC" = "APW" ∧ (true : Bool) = true
            then (k1 : Int) else (k1 : Int) * 256) +
           (if "dsPIC" = "APW" ∧ (true : Bool) = true
            then (k2 : Int) * 256 else (k2 : Int)) =
          (if "dsPIC" = "APW" ∧ (true : Bool) = true
           then (k1 : Int) + (k2 : Int) * 256
           else (k1 : Int) * 256 + (k2 : Int))
      simp
    · show s'.payload = ps
      exact hpay'
    · show s'.start_of_frame = some t
      exact hsof'
  · -- frames with the 0x55 0xAA preamble: APW in both directions and
    -- dsPIC write requests
    have hpB : (if rd = true ∧ dev = "dsPIC" then (0 : Int) else 2) = 2 :=
      if_neg hP
    have hd0 : decodeData dev
        { initState with start_of_transaction := some t,
                         start_of_frame := some t, read := rd,
                         for_us := true, preamble_offset := 2 } 85 =
        { initState with start_of_transaction := some t,
                         start_of_frame := some t, read := rd,
                         for_us := true, preamble_offset := 2 } :=
      decodeData_preamble_slot dev _ 85 rfl ⟨Or.inl rfl, rfl⟩
    have step1 : runDecode dev initState
        (txns t (expectedAddr dev) rd
           (85 :: 170 :: (ps.length + 4) :: c :: (ps ++ [k1])) ++
         [I2cEvent.start u, I2cEvent.address (expectedAddr dev) rd,
          I2cEvent.data k2]) =
        runDecode dev
        { initState with start_of_transaction := some t,
                         start_of_frame := some t,
                         end_of_frame := some (t + 1),
                         read := rd, last_read := rd, for_us := true,
                         preamble_offset := 2, byte_pos := 1 }
        (txns (t + 2) (expectedAddr dev) rd
           (170 :: (ps.length + 4) :: c :: (ps ++ [k1])) ++
         [I2cEvent.start u, I2cEvent.address (expectedAddr dev) rd,
          I2cEvent.data k2]) := by
      rw [txns_cons_append]
      exact run_txn_step_zero dev _ rd 2 rfl hpB initState _ t 85 _ rfl
        hd0 rfl (show ¬ (0 : Int) = 99 - 1 + 2 by decide)
    have hd1 : decodeData dev
        { initState with start_of_transaction := some (t + 2),
                         start_of_frame := some t,
                         end_of_frame := some (t + 1),
                         read := rd, last_read := rd, for_us := true,
                         preamble_offset := 2, byte_pos := 1 } 170 =
        { initState with start_of_transaction := some (t + 2),
                         start_of_frame := some t,
                         end_of_frame := some (t + 1),
                         read := rd, last_read := rd, for_us := true,
                         preamble_offset := 2, byte_pos := 1 } :=
      decodeData_preamble_slot dev _ 170 rfl ⟨Or.inr rfl, rfl⟩
    have step2 : runDecode dev
        { initState with start_of_transaction := some t,
                         start_of_frame := some t,
                         end_of_frame := some (t + 1),
                         read := rd, last_read := rd, for_us := true,
                         preamble_offset := 2, byte_pos := 1 }
        (txns (t + 2) (expectedAddr dev) rd
           (170 :: (ps.length + 4) :: c :: (ps ++ [k1])) ++
         [I2cEvent.start u, I2cEvent.address (expectedAddr dev) rd,
          I2cEvent.data k2]) =
        runDecode dev
        { initState with start_of_transaction := some (t + 2),
                         start_of_frame := some t,
                         end_of_frame := some (t + 3),
                         read := rd, last_read := rd, for_us := true,
                         preamble_offset := 2, byte_pos := 2 }
        (txns (t + 4) (expectedAddr dev) rd
           ((ps.length + 4) :: c :: (ps ++ [k1])) ++
         [I2cEvent.start u, I2cEvent.address (expectedAddr dev) rd,
          I2cEvent.data k2]) := by
      rw [txns_cons_append]
      exact run_txn_step dev _ rd 2 rfl hpB
        { initState with start_of_transaction := some t,
                         start_of_frame := some t,
                         end_of_frame := some (t + 1),
                         read := rd, last_read := rd, for_us := true,
                         preamble_offset := 2, byte_pos := 1 }
        _ (t + 2) 170 _ (show ¬ (1 : Int) = 0 by decide) hd1 rfl
        (show ¬ (1 : Int) = 99 - 1 + 2 by decide)
    have hd2 : decodeData dev
        { initState with start_of_transaction := some (t + 4),
                         start_of_frame := some t,
                         end_of_frame := some (t + 3),
                         read := rd, last_read := rd, for_us := true,
                         preamble_offset := 2, byte_pos := 2 }
        (ps.length + 4) =
        { initState with start_of_transaction := some (t + 4),
                         start_of_frame := some t,
                         end_of_frame := some (t + 3),
                         read := rd, last_read := rd, for_us := true,
                         preamble_offset := 2, byte_pos := 2,
                         checksum_calc := 0 + ((ps.length + 4 : Nat) : Int),
                         frame_len := ((ps.length + 4 : Nat) : Int) } :=
      decodeData_len dev _ (ps.length + 4) rfl
        (show (2 : Int) = 0 + 2 by decide)
        (show (2 : Int) < 99 - 2 + 2 by decide)
    have step3 : runDecode dev
        { initState with start_of_transaction := some (t + 2),
                         start_of_frame := some t,
                         end_of_frame := some (t + 3),
                         read := rd, last_read := rd, for_us := true,
                         preamble_offset := 2, byte_pos := 2 }
        (txns (t + 4) (expectedAddr dev) rd
           ((ps.length + 4) :: c :: (ps ++ [k1])) ++
         [I2cEvent.start u, I2cEvent.address (expectedAddr dev) rd,
          I2cEvent.data k2]) =
        runDecode dev
        { initState with start_of_transaction := some (t + 4),
                         start_of_frame := some t,
                         end_of_frame := some (t + 5),
                         read := rd, last_read := rd, for_us := true,
                         preamble_offset := 2, byte_pos := 3,
                         checksum_calc := 0 + ((ps.length + 4 : Nat) : Int),
                         frame_len := ((ps.length + 4 : Nat) : Int) }
        (txns (t + 6) (expectedAddr dev) rd (c :: (ps ++ [k1])) ++
         [I2cEvent.start u, I2cEvent.address (expectedAddr dev) rd,
          I2cEvent.data k2]) := by
      rw [txns_cons_append]
      refine run_txn_step dev _ rd 2 rfl hpB
        { initState with start_of_transaction := some (t + 2),
                         start_of_frame := some t,
                         end_of_frame := some (t + 3),
                         read := rd, last_read := rd, for_us := true,
                         preamble_offset := 2, byte_pos := 2 }
        _ (t + 4) (ps.length + 4) _ (show ¬ (2 : Int) = 0 by decide)
        hd2 rfl ?_
      show ¬ (2 : Int) = ((ps.length + 4 : Nat) : Int) - 1 + 2
      push_cast; omega
    have hd3 : decodeData dev
        { initState with start_of_transaction := some (t + 6),
                         start_of_frame := some t,
                         end_of_frame := some (t + 5),
                         read := rd, last_read := rd, for_us := true,
                         preamble_offset := 2, byte_pos := 3,
                         checksum_calc := 0 + ((ps.length + 4 : Nat) : Int),
                         frame_len := ((ps.length + 4 : Nat) : Int) } c =
        { initState with start_of_transaction := some (t + 6),
                         start_of_frame := some t,
                         end_of_frame := some (t + 5),
                         read := rd, last_read := rd, for_us := true,
                         preamble_offset := 2, byte_pos := 3,
                         checksum_calc :=
                           0 + ((ps.length + 4 : Nat) : Int) + (c : Int),
                         frame_len := ((ps.length + 4 : Nat) : Int),
                         code := (c : Int),
                         type := get_type dev (c : Int) } := by
      refine decodeData_code dev _ c rfl
        (show (3 : Int) = 1 + 2 by decide) ?_ hc
      show (3 : Int) < ((ps.length + 4 : Nat) : Int) - 2 + 2
      push_cast; omega
    have step4 : runDecode dev
        { initState with start_of_transaction := some (t + 4),
                         start_of_frame := some t,
                         end_of_frame := some (t + 5),
                         read := rd, last_read := rd, for_us := true,
                         preamble_offset := 2, byte_pos := 3,
                         checksum_calc := 0 + ((ps.length + 4 : Nat) : Int),
                         frame_len := ((ps.length + 4 : Nat) : Int) }
        (txns (t + 6) (expectedAddr dev) rd (c :: (ps ++ [k1])) ++
         [I2cEvent.start u, I2cEvent.address (expectedAddr dev) rd,
          I2cEvent.data k2]) =
        runDecode dev
        { initState with start_of_transaction := some (t + 6),
                         start_of_frame := some t,
                         end_of_frame := some (t + 7),
                         read := rd, last_read := rd, for_us := true,
                         preamble_offset := 2, byte_pos := 4,
                         checksum_calc :=
                           0 + ((ps.length + 4 : Nat) : Int) + (c : Int),
                         frame_len := ((ps.length + 4 : Nat) : Int),
                         code := (c : Int),
                         type := get_type dev (c : Int) }
        (txns (t + 8) (expectedAddr dev) rd (ps ++ [k1]) ++
         [I2cEvent.start u, I2cEvent.address (expectedAddr dev) rd,
          I2cEvent.data k2]) := by
      rw [txns_cons_append]
      refine run_txn_step dev _ rd 2 rfl hpB
        { initState with start_of_transaction := some (t + 4),
                         start_of_frame := some t,
                         end_of_frame := some (t + 5),
                         read := rd, last_read := rd, for_us := true,
                         preamble_offset := 2, byte_pos := 3,
                         checksum_calc := 0 + ((ps.length + 4 : Nat) : Int),
                         frame_len := ((ps.length + 4 : Nat) : Int) }
        _ (t + 6) c _ (show ¬ (3 : Int) = 0 by decide) hd3 rfl ?_
      show ¬ (3 : Int) = ((ps.length + 4 : Nat) : Int) - 1 + 2
      push_cast; omega
    obtain ⟨s', hrun, hf, hpp, hr, hbp, hfl, hpay, hcal, hcr, hsof, hcode,
            htype⟩ :=
      run_payload_phase dev _ rd 2 rfl hpB ps
        { initState with start_of_transaction := some (t + 6),
                         start_of_frame := some t,
                         end_of_frame := some (t + 7),
                         read := rd, last_read := rd, for_us := true,
                         preamble_offset := 2, byte_pos := 4,
                         checksum_calc :=
                           0 + ((ps.length + 4 : Nat) : Int) + (c : Int),
                         frame_len := ((ps.length + 4 : Nat) : Int),
                         code := (c : Int),
                         type := get_type dev (c : Int) }
        (t + 8)
        (txns (t + 8 + 2 * ps.length) (expectedAddr dev) rd [k1] ++
         [I2cEvent.start u, I2cEvent.address (expectedAddr dev) rd,
          I2cEvent.data k2])
        rfl rfl rfl (show (2 : Int) + 2 ≤ 4 by decide)
        (show (4 : Int) + (ps.length : Int) ≤
            ((ps.length + 4 : Nat) : Int) - 2 + 2 by push_cast; omega)
    have hbp' : s'.byte_pos = 4 + (ps.length : Int) := hbp
    have hfl' : s'.frame_len = ((ps.length + 4 : Nat) : Int) := hfl
    have hcal' : s'.checksum_calc =
        0 + ((ps.length + 4 : Nat) : Int) + (c : Int) + intSum ps := hcal
    have hpay' : s'.payload = ps := hpay
    have hsof' : s'.start_of_frame = some t := hsof
    have htail := run_tail_phase dev _ rd 2 rfl hpB s'
        ps.length k1 k2 (t + 8 + 2 * ps.length) u
        (show s'.byte_pos = (ps.length : Int) + 2 + 2 by rw [hbp']; ring)
        (show s'.frame_len = (ps.length : Int) + 4 by
          rw [hfl']; push_cast; ring)
    have main : runDecode dev initState
        (txns t (expectedAddr dev) rd
           ((if rd = true ∧ dev = "dsPIC" then ([] : List Nat)
             else [85, 170]) ++ [ps.length + 4, c] ++ ps ++ [k1]) ++
         [I2cEvent.start u, I2cEvent.address (expectedAddr dev) rd,
          I2cEvent.data k2]) =
        Except.ok
          ({ s' with start_of_transaction := some u,
                     end_of_frame := some (t + 8 + 2 * ps.length + 1),
                     read := rd, last_read := rd, for_us := true,
                     preamble_offset := 2,
                     checksum_read :=
                       (if dev = "APW" ∧ rd = true
                        then (k1 : Int) else (k1 : Int) * 256) +
                       (if dev = "APW" ∧ rd = true
                        then (k2 : Int) * 256 else (k2 : Int)),
                     byte_pos := s'.byte_pos + 1 }, []) := by
      rw [show ((if rd = true ∧ dev = "dsPIC" then ([] : List Nat)
           else [85, 170]) ++ [ps.length + 4, c] ++ ps ++ [k1]) =
          85 :: 170 :: (ps.length + 4) :: c :: (ps ++ [k1]) by
        rw [if_neg hP]; simp]
      rw [step1, step2, step3, step4]
      rw [show txns (t + 8) (expectedAddr dev) rd (ps ++ [k1]) ++
          [I2cEvent.start u, I2cEvent.address (expectedAddr dev) rd,
           I2cEvent.data k2] =
          txns (t + 8) (expectedAddr dev) rd ps ++
            (txns (t + 8 + 2 * ps.length) (expectedAddr dev) rd [k1] ++
             [I2cEvent.start u, I2cEvent.address (expectedAddr dev) rd,
              I2cEvent.data k2]) by
        rw [txns_append, List.append_assoc]]
      rw [hrun]
      exact htail
    refine ⟨_, main, ?_, ?_, ?_, ?_, ?_, ?_, ?_⟩
    · show s'.frame_len = (ps.length : Int) + 4
      rw [hfl']; push_cast; ring
    · show (2 : Int) = if rd = true ∧ dev = "dsPIC" then (0 : Int) else 2
      rw [if_neg hP]
    · show s'.byte_pos + 1 = s'.frame_len - 1 + 2
      omega
    · show s'.checksum_calc = ((ps.length : Int) + 4) + (c : Int) + intSum ps
      rw [hcal']; push_cast; ring
    · show (if dev = "APW" ∧ rd = true
            then (k1 : Int) else (k1 : Int) * 256) +
           (if dev = "APW" ∧ rd = true
            then (k2 : Int) * 256 else (k2 : Int)) =
          (if dev = "APW" ∧ rd = true
           then (k1 : Int) + (k2 : Int) * 256
           else (k1 : Int) * 256 + (k2 : Int))
      by_cases hQ : dev = "APW" ∧ rd = true
      · rw [if_pos hQ, if_pos hQ, if_pos hQ]
      · rw [if_neg hQ, if_neg hQ, if_neg hQ]
    · show s'.payload = ps
      exact hpay'
    · show s'.start_of_frame = some t
      exact hsof'

theorem checksum_accumulates_length_code_payload_witness :
    ∃ s : HlaState,
      runDecode "dsPIC" initState
        (txns 0 (expectedAddr "dsPIC") true
           ((if (true : Bool) = true ∧ "dsPIC" = "dsPIC"
             then ([] : List Nat) else [85, 170]) ++
            [([9, 8] : List Nat).length + 4, 5] ++ [9, 8] ++ [7]) ++
         [I2cEvent.start 100, I2cEvent.address (expectedAddr "dsPIC") true,
          I2cEvent.data 26]) =
        Except.ok (s, []) ∧
      s.frame_len = (([9, 8] : List Nat).length : Int) + 4 ∧
      s.preamble_offset =
        (if (true : Bool) = true ∧ "dsPIC" = "dsPIC"
         then (0 : Int) else 2) ∧
      s.byte_pos = s.frame_len - 1 + s.preamble_offset ∧
      s.checksum_calc =
        ((([9, 8] : List Nat).length : Int) + 4) + (5 : Int) +
          intSum [9, 8] ∧
      s.checksum_read =
        (if "dsPIC" = "APW" ∧ (true : Bool) = true
         then (7 : Int) + (26 : Int) * 256
         else (7 : Int) * 256 + (26 : Int)) ∧
      s.payload = [9, 8] ∧
      s.start_of_frame = some 0 :=
  checksum_accumulates_length_code_payload "dsPIC" true [9, 8] 5 7 26 0 100
    (by decide)
